import Mathlib

/-!
The client of `src/netatmo.js`: session manager, deferred dispatch gate,
authenticated request executor, error classifier and parameter validator.

This is a shallow embedding of the source.

* JavaScript values are the type `JSVal`; numbers are integers (and `NaN`,
  no fractions),
  objects are association lists in insertion order tagged with their kind
  (plain object, array, function, `Error`); every object takes a property
  that is assigned to it (none is frozen, none has accessors).  Objects are
  values, without identity: what the source writes into the `options` object
  of its caller (`access_token`, `required_data`, `type`, `date_begin`,
  `date_end`) shows in the request built from it, not in the caller's copy
  nor in a later replay of a handler that captured the object.  What a second
  replay of `getPublicData`, `getMeasure` or `getRoomMeasure` sends, and what
  two calls send that are given the same object, is therefore outside the
  embedding: the theorems below state the query or the form of a request for
  a call as it is made, for the first replay of a handler, and for the
  replays of `getStationsData`, which writes nothing into its options.  The
  token a request carries does not depend on it.
* The module-level variables (`access_token`, `client_id`, ...) and the
  event emitter of the client are the fields of `Client`.  The effects the
  source has on its collaborators are recorded there: `emitted` (calls of
  `this.emit`), `requests` (calls of `request(...)`), `timers` (calls of
  `setTimeout`) and `invoked` (calls of a user callback).  The variables
  belong to the module, so one client is modelled.
* A JavaScript function body is a `JS α`: it takes the client state and
  either returns a value or throws, in both cases with the state it left.
* The callbacks handed to `request` and the handlers subscribed with
  `this.on('authenticated', ...)` are first-order data (`Closure`,
  `Pending`) holding the variables they capture; `runClosure` and `replay`
  are their bodies.
* `JSON.parse`, `moment(...).utc().unix()`, `parseInt` on values that are
  not numbers, the string conversion of the values that are not printed here
  and `toLowerCase` on text outside ASCII are library functions, taken as the
  parameter `Ext`; `console.log` is left out.
* `emit` only records the emission: the listeners a user attaches are outside
  the embedding (in particular an `'error'` listener is taken to be attached,
  as node requires).  User callbacks are recorded, not run.
* A run is a list of `Op`: calls of the client and completions of its
  requests and timers, in any order and any number of times.
-/

namespace Netatmo

/-! ## JavaScript values -/

/-- The kind of a JavaScript object. -/
inductive ObjKind where
  | plain
  | array
  | function (id : Nat)
  | error
  deriving DecidableEq, Repr

/-- A JavaScript value.  An object carries its own properties in insertion
order and inherits from the prototype of its kind (`Object.prototype` for a
plain object); an array is an object of kind `array` with the keys `"0"`,
`"1"`, ...; an `Error` is an object of kind `error` with the property
`message`; `nan` is the number `NaN`. -/
inductive JSVal where
  | undefined
  | null
  | bool (b : Bool)
  | nan
  | num (n : Int)
  | str (s : String)
  | obj (kind : ObjKind) (props : List (String × JSVal))
  deriving Repr

namespace JSVal

mutual
/-- Structural equality test on values. -/
def beq : JSVal → JSVal → Bool
  | .undefined, .undefined => true
  | .null, .null => true
  | .nan, .nan => true
  | .bool a, .bool b => a == b
  | .num a, .num b => a == b
  | .str a, .str b => a == b
  | .obj k ps, .obj l qs => k == l && beqProps ps qs
  | _, _ => false
/-- Structural equality test on property lists. -/
def beqProps : List (String × JSVal) → List (String × JSVal) → Bool
  | [], [] => true
  | (k, v) :: ps, (l, w) :: qs => k == l && beq v w && beqProps ps qs
  | _, _ => false
end

mutual
theorem eq_of_beq : ∀ a b : JSVal, beq a b = true → a = b
  | .undefined, b, h => by cases b <;> simp_all [beq]
  | .null, b, h => by cases b <;> simp_all [beq]
  | .nan, b, h => by cases b <;> simp_all [beq]
  | .bool a, b, h => by cases b <;> simp_all [beq]
  | .num a, b, h => by cases b <;> simp_all [beq]
  | .str a, b, h => by cases b <;> simp_all [beq]
  | .obj k ps, b, h => by
    cases b <;> simp [beq] at h
    rw [h.1, eq_of_beqProps _ _ h.2]
theorem eq_of_beqProps :
    ∀ ps qs : List (String × JSVal), beqProps ps qs = true → ps = qs
  | [], qs, h => by cases qs <;> simp_all [beqProps]
  | (k, v) :: ps, qs, h => by
    cases qs with
    | nil => simp [beqProps] at h
    | cons q qs =>
      obtain ⟨l, w⟩ := q
      simp [beqProps] at h
      rw [h.1.1, eq_of_beq _ _ h.1.2, eq_of_beqProps _ _ h.2]
end

mutual
theorem beq_self : ∀ a : JSVal, beq a a = true
  | .undefined => by simp [beq]
  | .null => by simp [beq]
  | .nan => by simp [beq]
  | .bool a => by simp [beq]
  | .num a => by simp [beq]
  | .str a => by simp [beq]
  | .obj k ps => by simp [beq, beqProps_self ps]
theorem beqProps_self : ∀ ps : List (String × JSVal), beqProps ps ps = true
  | [] => by simp [beqProps]
  | (k, v) :: ps => by simp [beqProps, beq_self v, beqProps_self ps]
end

instance : DecidableEq JSVal := fun a b =>
  if h : beq a b = true then isTrue (eq_of_beq a b h)
  else isFalse (fun e => h (e ▸ beq_self a))

/-- A plain object, as written by an object literal or produced by JSON. -/
def object (props : List (String × JSVal)) : JSVal := .obj .plain props

/-- A function value; `id` tells functions apart. -/
def func (id : Nat) : JSVal := .obj (.function id) []

/-- The value of `new Error(message)`. -/
def mkError (message : String) : JSVal := .obj .error [("message", .str message)]

/-- Properties of the array with the given elements, from index `i` on. -/
def indexed : Nat → List JSVal → List (String × JSVal)
  | _, [] => []
  | i, v :: vs => (toString i, v) :: indexed (i + 1) vs

/-- An array value. -/
def array (elems : List JSVal) : JSVal := .obj .array (indexed 0 elems)

/-- JavaScript truthiness (`ToBoolean`). -/
def truthy : JSVal → Bool
  | .undefined => false
  | .null => false
  | .nan => false
  | .bool b => b
  | .num n => n != 0
  | .str s => s != ""
  | .obj _ _ => true

/-- The test `v == null`: true of `null` and `undefined` only. -/
def isNullish : JSVal → Bool
  | .undefined => true
  | .null => true
  | _ => false

/-- Look a key up in a property list. -/
def lookup (k : String) : List (String × JSVal) → Option JSVal
  | [] => none
  | (l, v) :: ps => if l = k then some v else lookup k ps

/-- Property assignment on a property list: overwrite in place, else append. -/
def setKey (k : String) (v : JSVal) : List (String × JSVal) → List (String × JSVal)
  | [] => [(k, v)]
  | (l, w) :: ps => if l = k then (l, v) :: ps else (l, w) :: setKey k v ps

end JSVal

/-- An exception thrown by the JavaScript code. -/
inductive Exn where
  | typeError (what : String)
  | syntaxError (what : String)
  deriving DecidableEq, Repr

namespace JSVal

/-- Property read `v.k`, for the property names the source reads (none of
them is a built-in property of a string, number, boolean, array or function):
reading from `undefined` or `null` throws a `TypeError`, a primitive has no
such property, an object yields its own property or `undefined`. -/
def getProp (v : JSVal) (k : String) : Except Exn JSVal :=
  match v with
  | .undefined => .error (.typeError ("Cannot read properties of undefined (reading '" ++ k ++ "')"))
  | .null => .error (.typeError ("Cannot read properties of null (reading '" ++ k ++ "')"))
  | .obj _ ps => .ok ((lookup k ps).getD .undefined)
  | _ => .ok .undefined

/-- Property write `v[k] = w` in non-strict code (the module has no
`'use strict'`): `undefined` and `null` throw, a primitive is left as it is,
an object gets the property. -/
def setProp (v : JSVal) (k : String) (w : JSVal) : Except Exn JSVal :=
  match v with
  | .undefined => .error (.typeError ("Cannot set properties of undefined (setting '" ++ k ++ "')"))
  | .null => .error (.typeError ("Cannot set properties of null (setting '" ++ k ++ "')"))
  | .obj kind ps => .ok (.obj kind (setKey k w ps))
  | other => .ok other

/-- The indices `"0"`, ..., `"n-1"` of a string of length `n`, from `i` on. -/
def indexKeys : Nat → Nat → List String
  | _, 0 => []
  | i, n + 1 => toString i :: indexKeys (i + 1) n

/-- The result of `Object.keys(v)`: the own enumerable property names.
`undefined` and `null` throw a `TypeError`; a string has its indices; the
`message` of an `Error` is not enumerable. -/
def objectKeys : JSVal → Except Exn (List String)
  | .undefined => .error (.typeError "Cannot convert undefined or null to object")
  | .null => .error (.typeError "Cannot convert undefined or null to object")
  | .str s => .ok (indexKeys 0 s.length)
  | .obj .error _ => .ok []
  | .obj _ ps => .ok (ps.map Prod.fst)
  | _ => .ok []

/-- The test `Array.isArray(v)`. -/
def isArray : JSVal → Bool
  | .obj .array _ => true
  | _ => false

/-- The test `typeof v === 'function'`. -/
def isFunction : JSVal → Bool
  | .obj (.function _) _ => true
  | _ => false

end JSVal

/-- The places where the source converts a value to a string: `concat` is the
operator `+` with a string operand (`ToPrimitive` without a hint, then
`ToString`), `element` is the conversion `Array.prototype.join` applies to an
element (`undefined` and `null` give the empty string, anything else
`ToString`). -/
inductive Conversion where
  | concat
  | element
  deriving DecidableEq, Repr

/-- The library functions the source calls. `jsonParse` is `JSON.parse`
(`none` when it throws a `SyntaxError`), `momentUnix` is
`moment(v).utc().unix()` after the seconds-to-milliseconds step for a `v` that
is not a number, `parseIntOther` is `parseInt(v, 10)` for a `v` that is not a
number printed in plain digits (a number is printed with an exponent from
`1e21` on, and `parseInt` reads the digits before it).  `toStringOther` is the
string conversion of a value the embedding does not print itself: a number
beyond the safe integers, a function, an `Error`, an object with a method
`toString` or `valueOf` of its own, an array with properties other than its
elements; `joinOther` is `v.join(',')` for such an array.  `toLowerCase` is
`String.prototype.toLowerCase` on a text with a character outside ASCII. -/
structure Ext where
  jsonParse : String → Option JSVal
  momentUnix : JSVal → JSVal
  parseIntOther : JSVal → JSVal
  toStringOther : Conversion → JSVal → Except Exn String
  joinOther : JSVal → Except Exn String
  toLowerCase : String → String

/-- The constant `Number.MAX_SAFE_INTEGER`, `2^53 - 1`: up to it every
integer is a number of its own and is printed with all its digits. -/
def MAX_SAFE_INTEGER : Int := 9007199254740991

namespace JSVal

/-- The properties are the elements of an array and nothing else: their names
are `"0"`, `"1"`, ... in order. -/
def isElements (ps : List (String × JSVal)) : Bool :=
  decide (ps.map Prod.fst = indexKeys 0 ps.length)

mutual
/-- String conversion of a value, in the place `c`.  A safe integer is printed
in plain digits.  A plain object without `toString` of its own is printed by
`Object.prototype.toString`; with a `toString` of its own that is not a
function (and no `valueOf` that is one) the conversion finds no method and
throws a `TypeError`.  An array of elements is joined with `","`. -/
def toStr (ext : Ext) (c : Conversion) : JSVal → Except Exn String
  | .undefined => .ok (if c = .element then "" else "undefined")
  | .null => .ok (if c = .element then "" else "null")
  | .nan => .ok "NaN"
  | .bool b => .ok (if b then "true" else "false")
  | .num n =>
    if -MAX_SAFE_INTEGER ≤ n ∧ n ≤ MAX_SAFE_INTEGER then .ok (toString n)
    else ext.toStringOther c (.num n)
  | .str s => .ok s
  | .obj .plain ps =>
    if ((lookup "toString" ps).getD .undefined).isFunction
        || ((lookup "valueOf" ps).getD .undefined).isFunction then
      ext.toStringOther c (.obj .plain ps)
    else if (lookup "toString" ps).isSome then
      .error (.typeError "Cannot convert object to primitive value")
    else .ok "[object Object]"
  | .obj .array ps =>
    if isElements ps then joinWith ext "," ps else ext.toStringOther c (.obj .array ps)
  | .obj .error ps => ext.toStringOther c (.obj .error ps)
  | .obj (.function id) ps => ext.toStringOther c (.obj (.function id) ps)
/-- The values of a property list converted and joined with `sep`, as
`Array.prototype.join` does it, from the first element on; the first
conversion that throws ends the call. -/
def joinWith (ext : Ext) (sep : String) : List (String × JSVal) → Except Exn String
  | [] => .ok ""
  | [(_, v)] => toStr ext .element v
  | (_, v) :: rest =>
    match toStr ext .element v with
    | .error e => .error e
    | .ok first =>
      match joinWith ext sep rest with
      | .error e => .error e
      | .ok others => .ok (first ++ sep ++ others)
end

/-- The call `v.join(',')` on an array `v`. -/
def join (ext : Ext) (v : JSVal) : Except Exn String :=
  match v with
  | .obj .array ps => if isElements ps then joinWith ext "," ps else ext.joinOther v
  | other => ext.joinOther other

end JSVal

/-! ## Strings -/

/-- White space in the sense of `String.prototype.trim` and of `\s`. -/
def isJsSpace (c : Char) : Bool :=
  let n := c.toNat
  n = 0x20 || n = 0x09 || n = 0x0A || n = 0x0B || n = 0x0C || n = 0x0D || n = 0xA0
    || n = 0x1680 || (0x2000 ≤ n && n ≤ 0x200A) || n = 0x2028 || n = 0x2029
    || n = 0x202F || n = 0x205F || n = 0x3000 || n = 0xFEFF

/-- The method `trim` of a string. -/
def jsTrim (s : String) : String :=
  String.mk ((s.data.dropWhile isJsSpace).reverse.dropWhile isJsSpace).reverse

/-- The method `toLowerCase` of a string: in a text of ASCII characters the
letters `A` to `Z` are lowered and nothing else changes. -/
def jsToLowerCase (ext : Ext) (s : String) : String :=
  if s.data.all (fun c => c.toNat < 128) then String.mk (s.data.map Char.toLower)
  else ext.toLowerCase s

/-- The test `s.indexOf(sub) !== -1`. -/
def jsContains (s sub : String) : Bool := s.data.tails.any (fun t => sub.data.isPrefixOf t)

/-- The call `s.replace(/\s/g, '')`. -/
def removeSpaces (s : String) : String := String.mk (s.data.filter (fun c => !isJsSpace c))

/-! ## The client state and its collaborators -/

/-- The endpoint methods of the client. -/
inductive Endpoint where
  | getPublicData | getStationsData | getMeasure | getHomeData | getEventsUntil
  | getLastEventOf | getNextEvents | getCameraPicture | setPersonsAway | setPersonsHome
  | addWebHook | dropWebHook | homesData | homeStatus | createNewHomeSchedule
  | deleteHomeSchedule | renameHomeSchedule | syncHomeSchedule | switchHomeSchedule
  | getRoomMeasure | setRoomThermPoint | setThermMode | getHomeCoachsData
  deriving DecidableEq, Repr

/-- A handler subscribed with
`this.on('authenticated', function () { this.method(options, callback); })`:
the method its body calls and the two variables it captures, with the value
`options` has when the handler is subscribed. -/
structure Pending where
  method : Endpoint
  options : JSVal
  callback : JSVal
  deriving DecidableEq

/-- The callback handed to `request`, with the variables it captures.
`endpoint` is the response handler of an endpoint method: `context` is the
message given to `handleRequestError`, `label` the event emitted on success,
`callbackOnError` tells whether the handler passes the error to the user
callback, `parseBody` whether it parses the body as JSON. -/
inductive Closure where
  | authenticate (callback : JSVal)
  | authenticate_refresh
  | endpoint (context label : String) (callbackOnError parseBody : Bool) (callback : JSVal)
  deriving DecidableEq

/-- HTTP method of a request. -/
inductive Method where
  | GET | POST
  deriving DecidableEq, Repr

/-- The argument of one call of `request`: `authorization` is the argument of
`util.format('Bearer %s', ...)` in the `Authorization` header, when there is one. -/
structure Request where
  url : String
  method : Method
  qs : Option JSVal
  form : Option JSVal
  authorization : Option JSVal
  callback : Closure
  deriving DecidableEq

/-- One call of `setTimeout(this.authenticate_refresh.bind(this), expires_in * 1000, refresh_token)`. -/
structure Timer where
  expires_in : JSVal
  refresh_token : JSVal
  deriving DecidableEq

/-- One call of `this.emit(channel, ...args)`. -/
structure Emission where
  channel : String
  args : List JSVal
  deriving DecidableEq

/-- One call of a user callback. -/
structure Invocation where
  callee : JSVal
  args : List JSVal
  deriving DecidableEq

/-- What the transport hands to the callback of `request` as `response`. -/
structure Response where
  statusCode : Nat
  headers : List (String × String)
  deriving DecidableEq

/-- The module-level variables, the listeners of `'authenticated'` and the
record of the effects on the collaborators (oldest first). -/
structure Client where
  username : JSVal := .undefined
  password : JSVal := .undefined
  client_id : JSVal := .undefined
  client_secret : JSVal := .undefined
  scope : JSVal := .undefined
  access_token : JSVal := .undefined
  listeners : List Pending := []
  emitted : List Emission := []
  requests : List Request := []
  timers : List Timer := []
  invoked : List Invocation := []
  deriving DecidableEq

/-- Result of running a function body. -/
inductive Res (α : Type) where
  | ok (val : α) (st : Client)
  | throw (e : Exn) (st : Client)

/-- The state a run ends in. -/
def Res.state {α : Type} : Res α → Client
  | .ok _ st => st
  | .throw _ st => st

/-- The value a run returns, if it returns. -/
def Res.value {α : Type} : Res α → Option α
  | .ok a _ => some a
  | .throw _ _ => none

/-- The exception a run throws, if it throws. -/
def Res.thrown {α : Type} : Res α → Option Exn
  | .ok _ _ => none
  | .throw e _ => some e

instance {α : Type} [DecidableEq α] : DecidableEq (Res α) := fun a b =>
  match a, b with
  | .ok x s, .ok y t =>
    if h : x = y ∧ s = t then isTrue (by rw [h.1, h.2])
    else isFalse (fun e => h (by cases e; exact ⟨rfl, rfl⟩))
  | .throw x s, .throw y t =>
    if h : x = y ∧ s = t then isTrue (by rw [h.1, h.2])
    else isFalse (fun e => h (by cases e; exact ⟨rfl, rfl⟩))
  | .ok _ _, .throw _ _ => isFalse (fun e => by cases e)
  | .throw _ _, .ok _ _ => isFalse (fun e => by cases e)

/-- A function body: from the state to a result. -/
def JS (α : Type) : Type := Client → Res α

/-- Return. -/
def JS.pure {α : Type} (a : α) : JS α := fun st => .ok a st

/-- Sequencing: an exception ends the body. -/
def JS.bind {α β : Type} (m : JS α) (f : α → JS β) : JS β := fun st =>
  match m st with
  | .ok a st1 => f a st1
  | .throw e st1 => .throw e st1

instance : Monad JS where
  pure := JS.pure
  bind := JS.bind

/-- Throw an exception. -/
def JS.throw {α : Type} (e : Exn) : JS α := fun st => .throw e st

/-- Run a pure step that may throw. -/
def JS.lift {α : Type} : Except Exn α → JS α
  | .ok a => JS.pure a
  | .error e => JS.throw e

/-- Read the state. -/
def JS.get : JS Client := fun st => .ok st st

/-- Change the state. -/
def JS.modify (f : Client → Client) : JS Unit := fun st => .ok () (f st)

/-- The call `this.emit(channel, ...args)` for a channel other than
`'authenticated'`. -/
def emit (channel : String) (args : List JSVal) : JS Unit :=
  JS.modify (fun st => { st with emitted := st.emitted ++ [⟨channel, args⟩] })

/-- The call `request(...)`. -/
def request (r : Request) : JS Unit :=
  JS.modify (fun st => { st with requests := st.requests ++ [r] })

/-- The call `callback(...args)`: a function is called (recorded), anything
else is not callable. -/
def callFunction (callback : JSVal) (args : List JSVal) : JS Unit :=
  match callback with
  | .obj (.function _) _ =>
    JS.modify (fun st => { st with invoked := st.invoked ++ [⟨callback, args⟩] })
  | _ => JS.throw (.typeError "callback is not a function")

/-- The constant `BASE_URL`. -/
def BASE_URL : String := "https://api.netatmo.com"

/-! ## Required-parameter validator and error classifier -/

/-- The `for` loop of `validateRequiredParams`, over the names still to check. -/
def validateLoop (f : String) (options : JSVal) : List String → JS Bool
  | [] => pure true
  | name :: rest => do
    let keys ← JS.lift options.objectKeys
    if keys.contains name then
      validateLoop f options rest
    else do
      emit "error" [JSVal.mkError (f ++ " '" ++ name ++ "' not set.")]
      pure false

/-- The method `validateRequiredParams(f, options, required_params)`. -/
def validateRequiredParams (f : String) (options : JSVal) (required_params : List String) :
    JS Bool := do
  if required_params.length > 0 then
    if !options.truthy then
      emit "error" [JSVal.mkError "Options not set."]
  validateLoop f options required_params

/-- The value of `response.headers[name]`. -/
def Response.header (r : Response) (name : String) : Option String :=
  (r.headers.find? (fun h => h.1 = name)).map Prod.snd

/-- The condition
`body && response.headers["content-type"].trim().toLowerCase().indexOf("application/json") !== -1`
of `handleRequestError`. `body` is `none` for `undefined`. -/
def isJsonResponse (ext : Ext) (response : Option Response) (body : Option String) :
    Except Exn Bool :=
  match body with
  | none => .ok false
  | some b =>
    if b = "" then .ok false
    else
      match response with
      | none => .error (.typeError "Cannot read properties of undefined (reading 'headers')")
      | some r =>
        match r.header "content-type" with
        | none => .error (.typeError "Cannot read properties of undefined (reading 'trim')")
        | some ct => .ok (jsContains (jsToLowerCase ext (jsTrim ct)) "application/json")

/-- The statement
`errorMessage = errorMessage && (errorMessage.error.message || errorMessage.error)`. -/
def errorDetail (parsed : JSVal) : Except Exn JSVal :=
  if parsed.truthy then do
    let e ← parsed.getProp "error"
    let m ← e.getProp "message"
    pure (if m.truthy then m else e)
  else pure parsed

/-- The method `handleRequestError(err, response, body, message, critical)`;
it returns the `Error` it emitted. -/
def handleRequestError (ext : Ext) (_err : JSVal) (response : Option Response)
    (body : Option String) (message : String) (critical : Bool) : JS JSVal := do
  let json ← JS.lift (isJsonResponse ext response body)
  let errorMessage ←
    if json then
      match ext.jsonParse (body.getD "undefined") with
      | none => JS.throw (.syntaxError "JSON.parse")
      | some parsed => JS.lift (errorDetail parsed)
    else
      match response with
      | some r => pure (JSVal.str ("Status code" ++ toString r.statusCode))
      | none => pure (JSVal.str "No response")
  let detail ← JS.lift (errorMessage.toStr ext .concat)
  let error := JSVal.mkError (message ++ ": " ++ detail)
  if critical then
    emit "error" [error]
  else
    emit "warning" [error]
  pure error

/-! ## Session manager -/

/-- The value `this` that the methods of the client return. -/
inductive Self where
  | this
  deriving DecidableEq, Repr

/-- The URL `util.format('%s/oauth2/token', BASE_URL)`. -/
def TOKEN_URL : String := BASE_URL ++ "/oauth2/token"

/-- The scope used when `args.scope` is not given. -/
def DEFAULT_SCOPE : String :=
  "read_station read_thermostat write_thermostat read_camera write_camera access_camera read_presence access_presence read_smokedetector read_homecoach"

/-- The grant part of the form of `authenticate`; `none` when the arguments
select no grant. -/
def grantForm (args : JSVal) (form : List (String × JSVal)) :
    Except Exn (Option (List (String × JSVal))) := do
  let username ← args.getProp "username"
  let password ← args.getProp "password"
  let code ← args.getProp "code"
  if username.truthy && password.truthy then
    pure (some (form ++ [("grant_type", .str "password"), ("username", username),
      ("password", password)]))
  else if code.truthy then
    pure (some (form ++ [("grant_type", .str "authorization_code"), ("code", code)]))
  else
    pure none

/-- The method `authenticate(args, callback)`, up to its return: the response
of the token endpoint is handled by `Closure.authenticate`. -/
def authenticate (args callback : JSVal) : JS Self := do
  if !args.truthy then
    emit "error" [JSVal.mkError "Authenticate 'args' not set."]
    pure .this
  else
    let token ← JS.lift (args.getProp "access_token")
    if token.truthy then
      JS.modify (fun st => { st with access_token := token })
      pure .this
    else
      let client_id ← JS.lift (args.getProp "client_id")
      let client_secret ← JS.lift (args.getProp "client_secret")
      if !client_id.truthy then
        emit "error" [JSVal.mkError "Authenticate 'client_id' not set."]
        pure .this
      else if !client_secret.truthy then
        emit "error" [JSVal.mkError "Authenticate 'client_secret' not set."]
        pure .this
      else
        let given ← JS.lift (args.getProp "scope")
        let scope := if given.truthy then given else .str DEFAULT_SCOPE
        JS.modify (fun st => { st with scope := scope })
        let form := [("client_id", client_id), ("client_secret", client_secret), ("scope", scope)]
        match ← JS.lift (grantForm args form) with
        | none =>
          emit "error" [JSVal.mkError "No valid authentication parameters set."]
          pure .this
        | some form =>
          let redirect_uri ← JS.lift (args.getProp "redirect_uri")
          let form := if redirect_uri.truthy then form ++ [("redirect_uri", redirect_uri)] else form
          request ⟨TOKEN_URL, .POST, none, some (JSVal.object form), none, .authenticate callback⟩
          pure .this

/-- The method `authenticate_refresh(refresh_token)`, up to its return: the
response is handled by `Closure.authenticate_refresh`. -/
def authenticate_refresh (refresh_token : JSVal) : JS Self := do
  let st ← JS.get
  let form := [("grant_type", .str "refresh_token"), ("refresh_token", refresh_token),
    ("client_id", st.client_id), ("client_secret", st.client_secret)]
  request ⟨TOKEN_URL, .POST, none, some (JSVal.object form), none, .authenticate_refresh⟩
  pure .this

/-- The call `setTimeout(this.authenticate_refresh.bind(this), expires_in * 1000, refresh_token)`. -/
def setTimeout (expires_in refresh_token : JSVal) : JS Unit :=
  JS.modify (fun st => { st with timers := st.timers ++ [⟨expires_in, refresh_token⟩] })

/-! ## Authenticated request executor -/

/-- The method `makeAuthenticatedGetRequest(url, qs, callback)`. -/
def makeAuthenticatedGetRequest (url : String) (qs : JSVal) (callback : Closure) : JS Unit := do
  let qs := if !qs.truthy then JSVal.object [] else qs
  let st ← JS.get
  request ⟨url, .GET, some qs, none, some st.access_token, callback⟩

/-- The method `makeAuthenticatedPostRequest(url, form, callback)`. -/
def makeAuthenticatedPostRequest (url : String) (form : JSVal) (callback : Closure) :
    JS Unit := do
  let st ← JS.get
  let form ← JS.lift (form.setProp "access_token" st.access_token)
  request ⟨url, .POST, none, some form, none, callback⟩

/-! ## Deferred dispatch gate and endpoint layer -/

/-- The call `this.on('authenticated', handler)`. -/
def onAuthenticated (handler : Pending) : JS Self := do
  JS.modify (fun st => { st with listeners := st.listeners ++ [handler] })
  pure .this

/-- The opening of every endpoint method,
`if (!access_token) { return this.on('authenticated', handler); }`,
followed by the rest of the method. -/
def waitUntilAuthenticated (handler : Pending) (rest : JS Self) : JS Self := do
  let st ← JS.get
  if !st.access_token.truthy then
    onAuthenticated handler
  else
    rest

/-- The statement
`if (options != null && callback == null) { callback = options; options = null; }`:
the pair of `options` and `callback` after it. -/
def swapCallback (options callback : JSVal) : JSVal × JSVal :=
  if !options.isNullish && callback.isNullish then (.null, options) else (options, callback)

/-- The function `simpleGetRequest(f, url, options, required_params, callback, emit_label)`. -/
def simpleGetRequest (f url : String) (options : JSVal) (required_params : List String)
    (callback : JSVal) (emit_label : String) : JS Self := do
  let (options, callback) := swapCallback options callback
  if !(← validateRequiredParams f options required_params) then
    pure .this
  else
    makeAuthenticatedGetRequest (BASE_URL ++ url) options
      (.endpoint (f ++ " error") emit_label false true callback)
    pure .this

/-- The function `simplePostRequest(f, url, options, required_params, callback, emit_label)`. -/
def simplePostRequest (f url : String) (options : JSVal) (required_params : List String)
    (callback : JSVal) (emit_label : String) : JS Self := do
  let (options, callback) := swapCallback options callback
  if !(← validateRequiredParams f options required_params) then
    pure .this
  else
    makeAuthenticatedPostRequest (BASE_URL ++ url) options
      (.endpoint (f ++ " error") emit_label false true callback)
    pure .this

/-- The body shared by the endpoint methods that check `options` themselves
(`getEventsUntil`, `getLastEventOf`, `getNextEvents`, `getCameraPicture`,
`setPersonsAway`, `setPersonsHome`, `addWebHook`, `dropWebHook`), after the
wait for authentication: the `options` check, the validation, and the GET or
POST with the response handler of the method. -/
def checkedRequest (f : String) (required_params : List String) (method : Method)
    (url emit_label : String) (parseBody : Bool) (options callback : JSVal) : JS Self := do
  if !options.truthy then
    emit "error" [JSVal.mkError (f ++ " 'options' not set.")]
    pure .this
  else if !(← validateRequiredParams f options required_params) then
    pure .this
  else
    let handler := Closure.endpoint (f ++ " error") emit_label false parseBody callback
    match method with
    | .GET => makeAuthenticatedGetRequest (BASE_URL ++ url) options handler
    | .POST => makeAuthenticatedPostRequest (BASE_URL ++ url) options handler
    pure .this

/-- The statements
`if (Array.isArray(v)) { v = v.join(','); } v = v.replace(/\s/g, '').toLowerCase();`
applied to `options.type` and `options.required_data`. -/
def normalizeList (ext : Ext) (v : JSVal) : Except Exn JSVal :=
  match v with
  | .obj .array ps =>
    match JSVal.join ext (.obj .array ps) with
    | .error e => .error e
    | .ok joined => .ok (.str (jsToLowerCase ext (removeSpaces joined)))
  | .str s => .ok (.str (jsToLowerCase ext (removeSpaces s)))
  | .undefined => .error (.typeError "Cannot read properties of undefined (reading 'replace')")
  | .null => .error (.typeError "Cannot read properties of null (reading 'replace')")
  | _ => .error (.typeError "replace is not a function")

/-- The largest time value of a `Date`, in milliseconds. -/
def MAX_TIME : Int := 8640000000000000

/-- The value of `moment(ms).utc().unix()` for a number of milliseconds:
`Math.floor(ms / 1000)`, and `NaN` outside the range of a `Date`. -/
def momentUnixOfNumber (ms : Int) : JSVal :=
  if -MAX_TIME ≤ ms ∧ ms ≤ MAX_TIME then .num (Int.fdiv ms 1000) else .nan

/-- The normalisation of a truthy date option:
`if (d <= 1E10) { d *= 1E3; } moment(d).utc().unix()`. -/
def normalizeDate (ext : Ext) (d : JSVal) : JSVal :=
  match d with
  | .num n => momentUnixOfNumber (if n ≤ 10000000000 then n * 1000 else n)
  | other => ext.momentUnix other

/-- The first number that is printed with an exponent, `1e21`. -/
def EXPONENT_FROM : Int := 1000000000000000000000

/-- The statements `limit = parseInt(options.limit, 10); if (limit > 1024) { limit = 1024; }`.
`parseInt` of an integer printed in plain digits is that integer. -/
def clampLimit (ext : Ext) (limit : JSVal) : JSVal :=
  let parsed := match limit with
    | .num n => if -EXPONENT_FROM < n ∧ n < EXPONENT_FROM then JSVal.num n
      else ext.parseIntOther limit
    | other => ext.parseIntOther other
  match parsed with
  | .num n => if n > 1024 then .num 1024 else .num n
  | other => other

/-- The part of `getMeasure` and `getRoomMeasure` that copies `date_begin`,
`date_end`, `limit`, `optimize` and `real_time` into the processed options. -/
def measureOptions (ext : Ext) (options : JSVal) (processed : List (String × JSVal)) :
    Except Exn (List (String × JSVal)) := do
  let date_begin ← options.getProp "date_begin"
  let processed :=
    if date_begin.truthy then JSVal.setKey "date_begin" (normalizeDate ext date_begin) processed
    else processed
  let date_end ← options.getProp "date_end"
  let processed :=
    if date_end = .str "last" then JSVal.setKey "date_end" (.str "last") processed
    else if date_end.truthy then JSVal.setKey "date_end" (normalizeDate ext date_end) processed
    else processed
  let limit ← options.getProp "limit"
  let processed :=
    if limit.truthy then JSVal.setKey "limit" (clampLimit ext limit) processed else processed
  let optimize ← options.getProp "optimize"
  let processed :=
    if optimize ≠ .undefined then JSVal.setKey "optimize" (.bool optimize.truthy) processed
    else processed
  let real_time ← options.getProp "real_time"
  let processed :=
    if real_time ≠ .undefined then JSVal.setKey "real_time" (.bool real_time.truthy) processed
    else processed
  pure processed

/-- The method `getPublicData(options, callback)`. -/
def getPublicData (ext : Ext) (options callback : JSVal) : JS Self :=
  waitUntilAuthenticated ⟨.getPublicData, options, callback⟩ do
    if !options.truthy then
      emit "error" [JSVal.mkError "getPublicData 'options' not set."]
      pure .this
    else if !(← validateRequiredParams "getPublicData" options
        ["lat_ne", "lon_ne", "lat_sw", "lon_sw"]) then
      pure .this
    else
      let required_data ← JS.lift (options.getProp "required_data")
      let required_data ← JS.lift (normalizeList ext required_data)
      let options ← JS.lift (options.setProp "required_data" required_data)
      makeAuthenticatedGetRequest (BASE_URL ++ "/api/getpublicdata") options
        (.endpoint "getPublicData error" "get-publicdata" true true callback)
      pure .this

/-- The method `getStationsData(options, callback)`. -/
def getStationsData (options callback : JSVal) : JS Self :=
  waitUntilAuthenticated ⟨.getStationsData, options, callback⟩ do
    let (options, callback) := swapCallback options callback
    makeAuthenticatedGetRequest (BASE_URL ++ "/api/getstationsdata") options
      (.endpoint "getStationsDataError error" "get-stationsdata" false true callback)
    pure .this

/-- The method `getMeasure(options, callback)`. -/
def getMeasure (ext : Ext) (options callback : JSVal) : JS Self :=
  waitUntilAuthenticated ⟨.getMeasure, options, callback⟩ do
    if !options.truthy then
      emit "error" [JSVal.mkError "getMeasure 'options' not set."]
      pure .this
    else if !(← validateRequiredParams "getMeasure" options ["device_id", "scale", "type"]) then
      pure .this
    else
      let type ← JS.lift (options.getProp "type")
      let type ← JS.lift (normalizeList ext type)
      let options ← JS.lift (options.setProp "type" type)
      let device_id ← JS.lift (options.getProp "device_id")
      let scale ← JS.lift (options.getProp "scale")
      let processed := [("device_id", device_id), ("scale", scale), ("type", type)]
      let module_id ← JS.lift (options.getProp "module_id")
      let processed :=
        if module_id.truthy then JSVal.setKey "module_id" module_id processed else processed
      let processed ← JS.lift (measureOptions ext options processed)
      makeAuthenticatedGetRequest (BASE_URL ++ "/api/getmeasure") (JSVal.object processed)
        (.endpoint "getMeasure error" "get-measure" true true callback)
      pure .this

/-- The method `getHomeData(options, callback)`. -/
def getHomeData (options callback : JSVal) : JS Self :=
  waitUntilAuthenticated ⟨.getHomeData, options, callback⟩ do
    let (options, callback) := swapCallback options callback
    simpleGetRequest "getHomeData" "/api/gethomedata" options [] callback "get-homedata"

/-- The method `getEventsUntil(options, callback)`. -/
def getEventsUntil (options callback : JSVal) : JS Self :=
  waitUntilAuthenticated ⟨.getEventsUntil, options, callback⟩
    (checkedRequest "getEventsUntil" ["home_id", "event_id"] .GET "/api/geteventsuntil"
      "get-eventsuntil" true options callback)

/-- The method `getLastEventOf(options, callback)`. -/
def getLastEventOf (options callback : JSVal) : JS Self :=
  waitUntilAuthenticated ⟨.getLastEventOf, options, callback⟩
    (checkedRequest "getLastEventOf" ["home_id", "person_id"] .GET "/api/getlasteventof"
      "get-lasteventof" true options callback)

/-- The method `getNextEvents(options, callback)`. -/
def getNextEvents (options callback : JSVal) : JS Self :=
  waitUntilAuthenticated ⟨.getNextEvents, options, callback⟩
    (checkedRequest "getNextEvents" ["home_id", "event_id"] .GET "/api/getnextevents"
      "get-nextevents" true options callback)

/-- The method `getCameraPicture(options, callback)`; its response handler
does not parse the body. -/
def getCameraPicture (options callback : JSVal) : JS Self :=
  waitUntilAuthenticated ⟨.getCameraPicture, options, callback⟩
    (checkedRequest "getCameraPicture" ["image_id", "key"] .GET "/api/getcamerapicture"
      "get-camerapicture" false options callback)

/-- The method `setPersonsAway(options, callback)`; the handler it subscribes
calls `this.getCameraPicture(options, callback)`. -/
def setPersonsAway (options callback : JSVal) : JS Self :=
  waitUntilAuthenticated ⟨.getCameraPicture, options, callback⟩
    (checkedRequest "setPersonsAway" ["home_id"] .POST "/api/setpersonsaway"
      "set-personsaway" true options callback)

/-- The method `setPersonsHome(options, callback)`; the handler it subscribes
calls `this.getCameraPicture(options, callback)`. -/
def setPersonsHome (options callback : JSVal) : JS Self :=
  waitUntilAuthenticated ⟨.getCameraPicture, options, callback⟩
    (checkedRequest "setPersonsHome" ["home_id"] .POST "/api/setpersonshome"
      "set-personshome" true options callback)

/-- The method `addWebHook(options, callback)`; the handler it subscribes
calls `this.getCameraPicture(options, callback)`. -/
def addWebHook (options callback : JSVal) : JS Self :=
  waitUntilAuthenticated ⟨.getCameraPicture, options, callback⟩
    (checkedRequest "addWebHook" ["url"] .POST "/api/addwebhook"
      "set-addwebhook" true options callback)

/-- The method `dropWebHook(options, callback)`; the handler it subscribes
calls `this.getCameraPicture(options, callback)`. -/
def dropWebHook (options callback : JSVal) : JS Self :=
  waitUntilAuthenticated ⟨.getCameraPicture, options, callback⟩
    (checkedRequest "dropWebHook" [] .POST "/api/dropwebhook"
      "set-dropwebhook" true options callback)

/-- The method `homesData(options, callback)`. -/
def homesData (options callback : JSVal) : JS Self :=
  waitUntilAuthenticated ⟨.homesData, options, callback⟩
    (simpleGetRequest "homesData" "/api/homesdata" options [] callback "get-homesdata")

/-- The method `homeStatus(options, callback)`. -/
def homeStatus (options callback : JSVal) : JS Self :=
  waitUntilAuthenticated ⟨.homeStatus, options, callback⟩
    (simpleGetRequest "homeStatus" "/api/homestatus" options ["home_id"] callback
      "get-homestatus")

/-- The method `createNewHomeSchedule(options, callback)`. -/
def createNewHomeSchedule (options callback : JSVal) : JS Self :=
  waitUntilAuthenticated ⟨.createNewHomeSchedule, options, callback⟩
    (simplePostRequest "createNewHomeSchedule" "/api/createnewhomeschedule" options
      ["home_id", "timetable", "zone", "name", "hg_temp", "away_temp"] callback
      "set-createnewhomeschedule")

/-- The method `deleteHomeSchedule(options, callback)`. -/
def deleteHomeSchedule (options callback : JSVal) : JS Self :=
  waitUntilAuthenticated ⟨.deleteHomeSchedule, options, callback⟩
    (simplePostRequest "deleteHomeSchedule" "/api/deletehomeschedule" options
      ["home_id", "schedule_id"] callback "set-createnewhomeschedule")

/-- The method `renameHomeSchedule(options, callback)`: the handler it
subscribes calls `this.homeStatus(options, callback)`, and its body calls
`this.homeStatus("renameHomeSchedule", "/api/renamehomeschedule", ...)`, of
which `homeStatus` takes the first two arguments. -/
def renameHomeSchedule (options callback : JSVal) : JS Self :=
  waitUntilAuthenticated ⟨.homeStatus, options, callback⟩
    (homeStatus (.str "renameHomeSchedule") (.str "/api/renamehomeschedule"))

/-- The method `syncHomeSchedule(options, callback)`. -/
def syncHomeSchedule (options callback : JSVal) : JS Self :=
  waitUntilAuthenticated ⟨.syncHomeSchedule, options, callback⟩
    (simplePostRequest "syncHomeSchedule" "/api/synchomeschedule" options
      ["home_id", "zones", "timetable", "hg_temp", "away_temp"] callback
      "set-synchomeschedule")

/-- The method `switchHomeSchedule(options, callback)`. -/
def switchHomeSchedule (options callback : JSVal) : JS Self :=
  waitUntilAuthenticated ⟨.switchHomeSchedule, options, callback⟩
    (simplePostRequest "switchHomeSchedule" "/api/switchhomeschedule" options
      ["schedule_id", "home_id"] callback "set-switchhomeschedule")

/-- The method `getRoomMeasure(options, callback)`. -/
def getRoomMeasure (ext : Ext) (options callback : JSVal) : JS Self :=
  waitUntilAuthenticated ⟨.getRoomMeasure, options, callback⟩ do
    if !(← validateRequiredParams "getRoomMeasure" options
        ["home_id", "room_id", "scale", "type"]) then
      pure .this
    else
      let type ← JS.lift (options.getProp "type")
      let type ← JS.lift (normalizeList ext type)
      let options ← JS.lift (options.setProp "type" type)
      let home_id ← JS.lift (options.getProp "home_id")
      let room_id ← JS.lift (options.getProp "room_id")
      let scale ← JS.lift (options.getProp "scale")
      let processed :=
        [("home_id", home_id), ("room_id", room_id), ("scale", scale), ("type", type)]
      let processed ← JS.lift (measureOptions ext options processed)
      makeAuthenticatedGetRequest (BASE_URL ++ "/api/getroommeasure") (JSVal.object processed)
        (.endpoint "getRoomMeasure error" "get-roommeasure" true true callback)
      pure .this

/-- The method `setRoomThermPoint(options, callback)`. -/
def setRoomThermPoint (options callback : JSVal) : JS Self :=
  waitUntilAuthenticated ⟨.setRoomThermPoint, options, callback⟩
    (simplePostRequest "setRoomThermPoint" "/api/setroomthermpoint" options
      ["home_id", "room_id", "mode"] callback "set-setroomthermpoint")

/-- The method `setThermMode(options, callback)`. -/
def setThermMode (options callback : JSVal) : JS Self :=
  waitUntilAuthenticated ⟨.setThermMode, options, callback⟩
    (simplePostRequest "setThermMode" "/api/setthermmode" options ["home_id", "mode"]
      callback "set-setthermmode")

/-- The method `getHomeCoachsData(options, callback)`. -/
def getHomeCoachsData (options callback : JSVal) : JS Self :=
  waitUntilAuthenticated ⟨.getHomeCoachsData, options, callback⟩
    (simpleGetRequest "getHomeCoachsData" "/api/gethomecoachsdata" options [] callback
      "get-homecoachesdata")

/-- The method call `this.method(options, callback)`. -/
def invoke (ext : Ext) (method : Endpoint) (options callback : JSVal) : JS Self :=
  match method with
  | .getPublicData => getPublicData ext options callback
  | .getStationsData => getStationsData options callback
  | .getMeasure => getMeasure ext options callback
  | .getHomeData => getHomeData options callback
  | .getEventsUntil => getEventsUntil options callback
  | .getLastEventOf => getLastEventOf options callback
  | .getNextEvents => getNextEvents options callback
  | .getCameraPicture => getCameraPicture options callback
  | .setPersonsAway => setPersonsAway options callback
  | .setPersonsHome => setPersonsHome options callback
  | .addWebHook => addWebHook options callback
  | .dropWebHook => dropWebHook options callback
  | .homesData => homesData options callback
  | .homeStatus => homeStatus options callback
  | .createNewHomeSchedule => createNewHomeSchedule options callback
  | .deleteHomeSchedule => deleteHomeSchedule options callback
  | .renameHomeSchedule => renameHomeSchedule options callback
  | .syncHomeSchedule => syncHomeSchedule options callback
  | .switchHomeSchedule => switchHomeSchedule options callback
  | .getRoomMeasure => getRoomMeasure ext options callback
  | .setRoomThermPoint => setRoomThermPoint options callback
  | .setThermMode => setThermMode options callback
  | .getHomeCoachsData => getHomeCoachsData options callback

/-! ## Events and responses -/

/-- The body of a handler subscribed to `'authenticated'`: the call
`this.method(options, callback)`.  The call gets the options as the handler
holds them; what the method writes into them is not kept for the next replay. -/
def replay (ext : Ext) (handler : Pending) : JS Unit := do
  let _ ← invoke ext handler.method handler.options handler.callback

/-- Call the handlers one after the other; an exception ends the emission. -/
def replayAll (ext : Ext) : List Pending → JS Unit
  | [] => pure ()
  | handler :: rest => do
    replay ext handler
    replayAll ext rest

/-- The call `this.emit('authenticated')`: the handlers subscribed at the
time of the call are called in subscription order; none is removed. -/
def emitAuthenticated (ext : Ext) : JS Unit := do
  let st ← JS.get
  JS.modify (fun st => { st with emitted := st.emitted ++ [⟨"authenticated", []⟩] })
  replayAll ext st.listeners

/-- The test `err || response.statusCode != 200`. -/
def requestFailed (err : JSVal) (response : Option Response) : Except Exn Bool :=
  if err.truthy then .ok true
  else
    match response with
    | none => .error (.typeError "Cannot read properties of undefined (reading 'statusCode')")
    | some r => .ok (r.statusCode != 200)

/-- The value of the variable `body`. -/
def bodyValue : Option String → JSVal
  | none => .undefined
  | some b => .str b

/-- The call `JSON.parse(body)`. -/
def parseJson (ext : Ext) (body : Option String) : JS JSVal :=
  match ext.jsonParse (body.getD "undefined") with
  | none => JS.throw (.syntaxError "JSON.parse")
  | some parsed => pure parsed

/-- The callback `authenticate` hands to `request`. -/
def authenticateResponse (ext : Ext) (callback err : JSVal) (response : Option Response)
    (body : Option String) : JS Unit := do
  if ← JS.lift (requestFailed err response) then
    let _ ← handleRequestError ext err response body "Authenticate error" true
  else
    let body ← parseJson ext body
    let token ← JS.lift (body.getProp "access_token")
    JS.modify (fun st => { st with access_token := token })
    let expires_in ← JS.lift (body.getProp "expires_in")
    if expires_in.truthy then
      setTimeout expires_in (← JS.lift (body.getProp "refresh_token"))
    emitAuthenticated ext
    if callback.truthy then
      callFunction callback []

/-- The callback `authenticate_refresh` hands to `request`. -/
def refreshResponse (ext : Ext) (err : JSVal) (response : Option Response)
    (body : Option String) : JS Unit := do
  if ← JS.lift (requestFailed err response) then
    let _ ← handleRequestError ext err response body "Authenticate refresh error" false
  else
    let body ← parseJson ext body
    let token ← JS.lift (body.getProp "access_token")
    JS.modify (fun st => { st with access_token := token })
    let expires_in ← JS.lift (body.getProp "expires_in")
    if expires_in.truthy then
      setTimeout expires_in (← JS.lift (body.getProp "refresh_token"))

/-- The callback an endpoint method hands to `makeAuthenticatedGetRequest`
or `makeAuthenticatedPostRequest`. -/
def endpointResponse (ext : Ext) (context label : String) (callbackOnError parseBody : Bool)
    (callback err : JSVal) (response : Option Response) (body : Option String) : JS Unit := do
  if ← JS.lift (requestFailed err response) then
    let error ← handleRequestError ext err response body context false
    if callbackOnError then
      if callback.truthy then
        callFunction callback [error]
  else
    let payload ←
      if parseBody then do
        let parsed ← parseJson ext body
        JS.lift (parsed.getProp "body")
      else
        pure (bodyValue body)
    emit label [err, payload]
    if callback.truthy then
      callFunction callback [err, payload]

/-- Run the callback of a request on what the transport delivers. -/
def runClosure (ext : Ext) (k : Closure) (err : JSVal) (response : Option Response)
    (body : Option String) : JS Unit :=
  match k with
  | .authenticate callback => authenticateResponse ext callback err response body
  | .authenticate_refresh => refreshResponse ext err response body
  | .endpoint context label callbackOnError parseBody callback =>
    endpointResponse ext context label callbackOnError parseBody callback err response body

/-! ## Runs of the client -/

/-- What can happen to a client: a call of `authenticate`, a call of an
endpoint method, the transport completing the request number `request` of the
record, the timer number `timer` firing. -/
inductive Op where
  | authenticate (args callback : JSVal)
  | call (method : Endpoint) (options callback : JSVal)
  | respond (request : Nat) (err : JSVal) (response : Option Response) (body : Option String)
  | timeout (timer : Nat)

/-- One operation; an exception it throws is lost at top level. -/
def step (ext : Ext) (op : Op) (st : Client) : Client :=
  match op with
  | .authenticate args callback => (authenticate args callback st).state
  | .call method options callback => (invoke ext method options callback st).state
  | .respond i err response body =>
    match st.requests.get? i with
    | none => st
    | some r => (runClosure ext r.callback err response body st).state
  | .timeout i =>
    match st.timers.get? i with
    | none => st
    | some t => (authenticate_refresh t.refresh_token st).state

/-- A sequence of operations, from the state `st`. -/
def run (ext : Ext) (ops : List Op) (st : Client) : Client :=
  ops.foldl (fun s op => step ext op s) st

/-- The state of the module when it is loaded. -/
def initial : Client := {}

/-! ## Statements about requests -/

/-- The request was issued by an endpoint method: its callback is the
response handler of one. -/
def Request.viaEndpoint (q : Request) : Bool :=
  match q.callback with
  | .endpoint _ _ _ _ _ => true
  | _ => false

/-- The request carries the token: a GET in its `Authorization` header, a
POST in the field `access_token` of its form. -/
def Request.carries (q : Request) (token : JSVal) : Bool :=
  match q.method, q.form with
  | .GET, _ => decide (q.authorization = some token)
  | .POST, some (.obj _ props) => decide (JSVal.lookup "access_token" props = some token)
  | .POST, _ => false

/-- The value is an object (of any kind, a function included) or is absent
(`undefined` or `null`): what a caller passes as `options`. -/
def JSVal.isObjectOrAbsent : JSVal → Bool
  | .undefined => true
  | .null => true
  | .obj _ _ => true
  | _ => false

/-- The operation passes an object, or nothing, as the `options` of an
endpoint method. -/
def Op.wellFormed : Op → Bool
  | .call _ options _ => options.isObjectOrAbsent
  | _ => true

/-- The two states have the same token, the same handlers and the same
record of requests. -/
def Quiet (st st' : Client) : Prop :=
  st'.access_token = st.access_token ∧ st'.listeners = st.listeners ∧
    st'.requests = st.requests

/-- What a token operation may do: change the token and send requests that
are not those of an endpoint method; the listeners stay. -/
def NoSend (st st' : Client) : Prop :=
  st'.listeners = st.listeners ∧
    ∃ new, st'.requests = st.requests ++ new ∧ ∀ q ∈ new, q.viaEndpoint = false

/-- What an endpoint call may do: the token stays, every request sent is one
of an endpoint method, is sent with the token set and carries it, and every
handler subscribed holds an object or nothing as `options`. -/
def Frame (st st' : Client) : Prop :=
  st'.access_token = st.access_token ∧
    (∃ added, st'.listeners = st.listeners ++ added ∧
      ∀ p ∈ added, p.options.isObjectOrAbsent = true) ∧
    ∃ new, st'.requests = st.requests ++ new ∧
      ∀ q ∈ new, q.viaEndpoint = true ∧ st.access_token.truthy = true ∧
        q.carries st.access_token = true

/-- The relation `Frame` for a call that got past the wait for authentication. -/
def Guarded (st st' : Client) : Prop :=
  st.access_token.truthy = true → Frame st st'

/-- The relation `Frame` for a run that starts with well-formed handlers. -/
def FrameWf (st st' : Client) : Prop :=
  (∀ p ∈ st.listeners, p.options.isObjectOrAbsent = true) → Frame st st'

/-- What the callback of a request may do, from well-formed handlers: first
what a token operation does, then what endpoint calls do. -/
def Step (st st' : Client) : Prop :=
  (∀ p ∈ st.listeners, p.options.isObjectOrAbsent = true) →
    ∃ mid, NoSend st mid ∧ Frame mid st'

/-- Every run of the body relates the state it starts in to the state it
ends in, whether it returns or throws. -/
structure Holds {α : Type} (R : Client → Client → Prop) (m : JS α) : Prop where
  run : ∀ st, R st (m st).state

/-- The invariant of the runs: the handlers hold well-formed options, and
every request of an endpoint method in the record carries a token that is set. -/
def Inv (st : Client) : Prop :=
  (∀ p ∈ st.listeners, p.options.isObjectOrAbsent = true) ∧
    ∀ q ∈ st.requests, q.viaEndpoint = true → ∃ token, token.truthy = true ∧ q.carries token = true

/-- A relation that contains `Quiet` and is transitive. -/
structure Rel (R : Client → Client → Prop) : Prop where
  quiet : ∀ {a b}, Quiet a b → R a b
  trans : ∀ {a b c}, R a b → R b c → R a c

/-- What any operation may do to the handlers and to the record of requests:
add to them at the end.  No handler is removed or moved, no request is taken
back. -/
def Grows (st st' : Client) : Prop :=
  (∃ added, st'.listeners = st.listeners ++ added) ∧ ∃ new, st'.requests = st.requests ++ new

/-- What an endpoint call may do, whatever its arguments: the token stays,
handlers and requests are added at the end. -/
def Adds (st st' : Client) : Prop :=
  st'.access_token = st.access_token ∧ Grows st st'

/-- The call `this.emit('authenticated')`, as the state it leaves. -/
def fire (ext : Ext) (st : Client) : Client := (emitAuthenticated ext st).state

/-- The request `getStationsData(options, callback)` sends when the token is
`token`. -/
def stationsRequest (options callback token : JSVal) : Request :=
  ⟨BASE_URL ++ "/api/getstationsdata", .GET,
    some (if !(swapCallback options callback).1.truthy then JSVal.object []
      else (swapCallback options callback).1),
    none, some token,
    .endpoint "getStationsDataError error" "get-stationsdata" false true
      (swapCallback options callback).2⟩

/-! ## Sample data -/

/-- The body of a successful token response. -/
def sampleTokenBody : String :=
  "\x7b\"access_token\":\"A\",\"refresh_token\":\"R\",\"expires_in\":10800\x7d"

/-- The library functions on the sample data: `JSON.parse` of
`sampleTokenBody`; no other text is parsed and no other function is called in
the examples. -/
def sampleExt : Ext where
  jsonParse := fun s =>
    if s = sampleTokenBody then
      some (JSVal.object [("access_token", .str "A"), ("refresh_token", .str "R"),
        ("expires_in", .num 10800)])
    else none
  momentUnix := fun _ => .nan
  parseIntOther := fun _ => .nan
  toStringOther := fun _ _ => .ok ""
  joinOther := fun _ => .ok ""
  toLowerCase := fun s => s

/-- The body of an error response whose `error` has a message. -/
def sampleErrorBody : String := "\x7b\"error\":\x7b\"message\":\"Invalid token\"\x7d\x7d"

/-- The body of an error response whose `error` is a string. -/
def sampleGrantErrorBody : String := "\x7b\"error\":\"invalid_grant\"\x7d"

/-- The body of an error response whose `error` has an empty message. -/
def sampleEmptyMessageBody : String := "\x7b\"error\":\x7b\"message\":\"\"\x7d\x7d"

/-- The body of an error response whose `error` is `null`. -/
def sampleNullErrorBody : String := "\x7b\"error\":null\x7d"

/-- The body of an error response whose message is the number `1e21`. -/
def sampleLargeMessageBody : String := "\x7b\"error\":\x7b\"message\":1e21\x7d\x7d"

/-- The body of an error response whose `error` has a `toString` that is not
a function. -/
def sampleToStringBody : String := "\x7b\"error\":\x7b\"toString\":1\x7d\x7d"

/-- The library functions on the error bodies above and on the number `1e21`:
`JSON.parse` of the six texts; `parseInt(1e21, 10)`, which reads the `1` of
`"1e+21"`; and the conversion of `1e21` to that string. -/
def sampleErrorExt : Ext where
  jsonParse := fun s =>
    if s = sampleErrorBody then
      some (JSVal.object [("error", JSVal.object [("message", .str "Invalid token")])])
    else if s = sampleGrantErrorBody then
      some (JSVal.object [("error", .str "invalid_grant")])
    else if s = sampleEmptyMessageBody then
      some (JSVal.object [("error", JSVal.object [("message", .str "")])])
    else if s = sampleNullErrorBody then
      some (JSVal.object [("error", .null)])
    else if s = sampleLargeMessageBody then
      some (JSVal.object [("error", JSVal.object [("message", .num EXPONENT_FROM)])])
    else if s = sampleToStringBody then
      some (JSVal.object [("error", JSVal.object [("toString", .num 1)])])
    else none
  momentUnix := fun _ => .nan
  parseIntOther := fun v => if v = .num EXPONENT_FROM then .num 1 else .nan
  toStringOther := fun _ v => if v = .num EXPONENT_FROM then .ok "1e+21" else .ok ""
  joinOther := fun _ => .ok ""
  toLowerCase := fun s => s

/-- The body of a successful `homesdata` response. -/
def sampleHomesBody : String := "\x7b\"body\":\x7b\"homes\":[]\x7d,\"status\":\"ok\"\x7d"

/-- The library functions on `sampleHomesBody`: `JSON.parse` of that text; no
other function is called in the example. -/
def sampleHomesExt : Ext where
  jsonParse := fun s =>
    if s = sampleHomesBody then
      some (JSVal.object [("body", JSVal.object [("homes", JSVal.array [])]),
        ("status", .str "ok")])
    else none
  momentUnix := fun _ => .nan
  parseIntOther := fun _ => .nan
  toStringOther := fun _ _ => .ok ""
  joinOther := fun _ => .ok ""
  toLowerCase := fun s => s

/-- The options of a `getMeasure` call, with the extra options given. -/
def sampleMeasure (extra : List (String × JSVal)) : JSVal :=
  JSVal.object ([("device_id", .str "d"), ("scale", .str "max"), ("type", .str "Temperature")]
    ++ extra)

/-- The options of a `getRoomMeasure` call, with the extra options given. -/
def sampleRoomMeasure (extra : List (String × JSVal)) : JSVal :=
  JSVal.object ([("home_id", .str "h"), ("room_id", .str "r"), ("scale", .str "max"),
    ("type", .str "Temperature")] ++ extra)

/-- The state after `authenticate` with the pre-issued token "T". -/
def sampleAuthenticated : Client := { access_token := .str "T" }

/-- Arguments of `authenticate` for the password grant. -/
def sampleCredentials : JSVal :=
  JSVal.object [("client_id", .str "c"), ("client_secret", .str "s"), ("username", .str "u"),
    ("password", .str "p")]

/-- Arguments of `authenticate` with a pre-issued token. -/
def sampleToken : JSVal := JSVal.object [("access_token", .str "T")]

/-! ## Theorems -/

@[simp] theorem js_bind_apply {α β : Type} (m : JS α) (f : α → JS β) (st : Client) :
    (m >>= f) st = match m st with
      | .ok a st1 => f a st1
      | .throw e st1 => .throw e st1 := rfl

@[simp] theorem js_pure_apply {α : Type} (a : α) (st : Client) :
    (pure a : JS α) st = .ok a st := rfl

@[simp] theorem js_lift_ok {α : Type} (a : α) (st : Client) :
    JS.lift (.ok a) st = .ok a st := rfl

@[simp] theorem js_lift_error {α : Type} (e : Exn) (st : Client) :
    (JS.lift (.error e) : JS α) st = .throw e st := rfl

@[simp] theorem js_throw_apply {α : Type} (e : Exn) (st : Client) :
    (JS.throw e : JS α) st = .throw e st := rfl

@[simp] theorem js_get_apply (st : Client) : JS.get st = .ok st st := rfl

@[simp] theorem js_modify_apply (f : Client → Client) (st : Client) :
    JS.modify f st = .ok () (f st) := rfl

theorem objectKeys_object (props : List (String × JSVal)) :
    (JSVal.object props).objectKeys = .ok (props.map Prod.fst) := rfl

theorem validateLoop_present (f : String) (props : List (String × JSVal)) (st : Client) :
    ∀ required : List String, (∀ n ∈ required, n ∈ props.map Prod.fst) →
      validateLoop f (JSVal.object props) required st = .ok true st
  | [], _ => rfl
  | name :: rest, h => by
    have h1 : name ∈ props.map Prod.fst := h name (List.mem_cons_self _ _)
    have h2 := validateLoop_present f props st rest (fun n hn => h n (List.mem_cons_of_mem _ hn))
    simp only [validateLoop, js_bind_apply, objectKeys_object, JS.lift, JS.pure]
    simp [h1, h2]

theorem validateLoop_missing (f : String) (props : List (String × JSVal)) (st : Client)
    (name : String) (post : List String) (hname : name ∉ props.map Prod.fst) :
    ∀ pre : List String, (∀ n ∈ pre, n ∈ props.map Prod.fst) →
      validateLoop f (JSVal.object props) (pre ++ name :: post) st =
        .ok false { st with emitted := st.emitted ++
          [⟨"error", [JSVal.mkError (f ++ " '" ++ name ++ "' not set.")]⟩] }
  | [], _ => by
    simp only [List.nil_append, validateLoop, js_bind_apply, objectKeys_object, JS.lift, JS.pure]
    simp [hname, emit, JS.modify]
  | n :: pre, h => by
    have h1 : n ∈ props.map Prod.fst := h n (List.mem_cons_self _ _)
    have h2 := validateLoop_missing f props st name post hname pre
      (fun m hm => h m (List.mem_cons_of_mem _ hm))
    simp only [List.cons_append, validateLoop, js_bind_apply, objectKeys_object, JS.lift, JS.pure]
    simp [h1, h2]

theorem validateRequiredParams_object (f : String) (props : List (String × JSVal))
    (required : List String) (st : Client) :
    validateRequiredParams f (JSVal.object props) required st =
      validateLoop f (JSVal.object props) required st := by
  simp only [validateRequiredParams, js_bind_apply]
  by_cases hpos : required.length > 0 <;> simp [hpos, JSVal.object, JSVal.truthy]

theorem first_missing_split (keys : List String) :
    ∀ required : List String, (∃ n ∈ required, n ∉ keys) →
      ∃ pre name post, required = pre ++ name :: post ∧ (∀ n ∈ pre, n ∈ keys) ∧ name ∉ keys
  | [], h => by obtain ⟨n, hn, _⟩ := h; cases hn
  | a :: rest, h => by
    by_cases ha : a ∈ keys
    · obtain ⟨n, hn, hnot⟩ := h
      have hn2 : n ∈ rest := by
        rcases List.mem_cons.mp hn with rfl | hn2
        · exact absurd ha hnot
        · exact hn2
      obtain ⟨pre, name, post, he, hp, hm⟩ := first_missing_split keys rest ⟨n, hn2, hnot⟩
      refine ⟨a :: pre, name, post, by rw [he]; rfl, ?_, hm⟩
      intro m hm2
      rcases List.mem_cons.mp hm2 with rfl | hm3
      · exact ha
      · exact hp m hm3
    · exact ⟨[], a, rest, rfl, fun _ hm => (by cases hm), ha⟩

/-- C6: for an options object and a list of required names of which at least
one is not a key of the object, `validateRequiredParams` returns `false` and
emits exactly one event, an `'error'` whose message names the calling context
and the first name of the list that is missing. -/
theorem validateRequiredParams_names_first_missing (f : String)
    (props : List (String × JSVal)) (required : List String) (st : Client)
    (h : ∃ n ∈ required, n ∉ props.map Prod.fst) :
    ∃ pre name post, required = pre ++ name :: post ∧ (∀ n ∈ pre, n ∈ props.map Prod.fst) ∧
      name ∉ props.map Prod.fst ∧
      validateRequiredParams f (JSVal.object props) required st =
        .ok false { st with emitted := st.emitted ++
          [⟨"error", [JSVal.mkError (f ++ " '" ++ name ++ "' not set.")]⟩] } := by
  obtain ⟨pre, name, post, he, hp, hm⟩ := first_missing_split _ required h
  refine ⟨pre, name, post, he, hp, hm, ?_⟩
  subst he
  rw [validateRequiredParams_object]
  exact validateLoop_missing f props st name post hm pre hp

/-- The claim C6 on the options `{a: 1}` and the names `['a', 'b']`: the
result is `false` and the one error names `'b'`. -/
theorem validateRequiredParams_names_first_missing_witness :
    (∃ n ∈ ["a", "b"], n ∉ [("a", JSVal.num 1)].map Prod.fst) ∧
    (∃ pre name post, ["a", "b"] = pre ++ name :: post ∧
      (∀ n ∈ pre, n ∈ [("a", JSVal.num 1)].map Prod.fst) ∧
      name ∉ [("a", JSVal.num 1)].map Prod.fst ∧
      validateRequiredParams "validate" (JSVal.object [("a", .num 1)]) ["a", "b"] initial =
        .ok false { initial with emitted := initial.emitted ++
          [⟨"error", [JSVal.mkError ("validate" ++ " '" ++ name ++ "' not set.")]⟩] }) ∧
    validateRequiredParams "validate" (JSVal.object [("a", .num 1)]) ["a", "b"] initial =
      .ok false { emitted := [⟨"error", [JSVal.mkError "validate 'b' not set."]⟩] } :=
  ⟨⟨"b", by decide, by decide⟩,
    validateRequiredParams_names_first_missing "validate" [("a", .num 1)] ["a", "b"] initial
      ⟨"b", by decide, by decide⟩,
    by decide⟩

/-- C7: for an options object and a list of required names,
`validateRequiredParams` returns `true` exactly when every name of the list is
a key of the object, whatever the value under the key; it then leaves the
state as it is (nothing is emitted); and it never throws. -/
theorem validateRequiredParams_true_iff (f : String) (props : List (String × JSVal))
    (required : List String) (st : Client) :
    ((validateRequiredParams f (JSVal.object props) required st).value = some true ↔
      ∀ n ∈ required, n ∈ props.map Prod.fst) ∧
    ((validateRequiredParams f (JSVal.object props) required st).value = some true →
      validateRequiredParams f (JSVal.object props) required st = .ok true st) ∧
    (validateRequiredParams f (JSVal.object props) required st).thrown = none := by
  rw [validateRequiredParams_object]
  by_cases hall : ∀ n ∈ required, n ∈ props.map Prod.fst
  · rw [validateLoop_present f props st required hall]
    exact ⟨⟨fun _ => hall, fun _ => rfl⟩, fun _ => rfl, rfl⟩
  · have hex : ∃ n ∈ required, n ∉ props.map Prod.fst := by
      by_contra hno
      exact hall (fun n hn => by_contra (fun hnot => hno ⟨n, hn, hnot⟩))
    obtain ⟨pre, name, post, he, hp, hm⟩ := first_missing_split _ required hex
    subst he
    rw [validateLoop_missing f props st name post hm pre hp]
    refine ⟨⟨fun h => ?_, fun h => absurd h hall⟩, fun h => ?_, rfl⟩
    · simp [Res.value] at h
    · simp [Res.value] at h

/-- The claim C7 on two objects: `{a: undefined, b: 0}` has both names, so the
result is `true` and nothing is emitted; `{a: 1}` lacks `b`, so it is not. -/
theorem validateRequiredParams_true_iff_witness :
    (validateRequiredParams "validate" (JSVal.object [("a", .undefined), ("b", .num 0)])
      ["a", "b"] initial).value = some true ∧
    validateRequiredParams "validate" (JSVal.object [("a", .undefined), ("b", .num 0)])
      ["a", "b"] initial = .ok true initial ∧
    ¬ (validateRequiredParams "validate" (JSVal.object [("a", .num 1)])
      ["a", "b"] initial).value = some true :=
  ⟨(validateRequiredParams_true_iff "validate" [("a", .undefined), ("b", .num 0)] ["a", "b"]
      initial).1.mpr (by decide),
    (validateRequiredParams_true_iff "validate" [("a", .undefined), ("b", .num 0)] ["a", "b"]
      initial).2.1 (by decide),
    fun h => absurd ((validateRequiredParams_true_iff "validate" [("a", .num 1)] ["a", "b"]
      initial).1.mp h) (by decide)⟩

/-- C8: with `options` absent and a non-empty list of required names,
`validateRequiredParams` emits the error "Options not set." and then throws
the `TypeError` of `Object.keys(options)`; it does not return `false`. -/
theorem validateRequiredParams_absent_options_throws (f name : String) (rest : List String)
    (st : Client) :
    validateRequiredParams f .undefined (name :: rest) st =
      .throw (.typeError "Cannot convert undefined or null to object")
        { st with emitted := st.emitted ++ [⟨"error", [JSVal.mkError "Options not set."]⟩] } ∧
    validateRequiredParams f .null (name :: rest) st =
      .throw (.typeError "Cannot convert undefined or null to object")
        { st with emitted := st.emitted ++ [⟨"error", [JSVal.mkError "Options not set."]⟩] } := by
  constructor <;>
    simp [validateRequiredParams, validateLoop, JSVal.truthy, JSVal.objectKeys, emit, JS.modify,
      JS.lift, JS.throw]

/-- C9: on a response without a `content-type` header and a non-empty body,
`handleRequestError` throws a `TypeError` (the header is `undefined` and has
no `trim`): it emits nothing and returns no error. -/
theorem handleRequestError_no_content_type_throws (ext : Ext) (err : JSVal) (status : Nat)
    (message : String) (critical : Bool) (st : Client) :
    handleRequestError ext err (some ⟨status, []⟩) (some "Internal Server Error") message
        critical st =
      .throw (.typeError "Cannot read properties of undefined (reading 'trim')") st := by
  simp [handleRequestError, isJsonResponse, Response.header, JS.lift, JS.throw]

/-- C10: on a response that is not JSON the message of `handleRequestError`
is the context, `": "`, `"Status code"` and the status code with no space
between the two: for status 500 it ends in `"Status code500"`, not in
`"Status code 500"`. -/
theorem handleRequestError_status_code_no_space :
    (∀ (ext : Ext) (err : JSVal) (status : Nat) (headers : List (String × String))
        (message : String) (st : Client),
      handleRequestError ext err (some ⟨status, headers⟩) none message false st =
        .ok (JSVal.mkError (message ++ ": " ++ ("Status code" ++ toString status)))
          { st with emitted := st.emitted ++
            [⟨"warning", [JSVal.mkError (message ++ ": " ++ ("Status code" ++ toString status))]⟩] }) ∧
    handleRequestError sampleExt .null (some ⟨500, [("content-type", "text/html")]⟩)
        (some "oops") "getMeasure error" false initial =
      .ok (JSVal.mkError "getMeasure error: Status code500")
        { emitted := [⟨"warning", [JSVal.mkError "getMeasure error: Status code500"]⟩] } ∧
    (handleRequestError sampleExt .null (some ⟨500, [("content-type", "text/html")]⟩)
        (some "oops") "getMeasure error" false initial).value ≠
      some (JSVal.mkError "getMeasure error: Status code 500") := by
  refine ⟨?_, by decide, by decide⟩
  intro ext err status headers message st
  simp [handleRequestError, isJsonResponse, JS.lift, JS.pure, emit, JS.modify, JSVal.toStr]

theorem quiet_refl (st : Client) : Quiet st st := ⟨rfl, rfl, rfl⟩

theorem quiet_trans {a b c : Client} (h1 : Quiet a b) (h2 : Quiet b c) : Quiet a c :=
  ⟨h2.1.trans h1.1, h2.2.1.trans h1.2.1, h2.2.2.trans h1.2.2⟩

theorem noSend_of_quiet {a b : Client} (h : Quiet a b) : NoSend a b :=
  ⟨h.2.1, [], by simp [h.2.2], by simp⟩

theorem noSend_trans {a b c : Client} (h1 : NoSend a b) (h2 : NoSend b c) : NoSend a c := by
  obtain ⟨l1, n1, r1, v1⟩ := h1
  obtain ⟨l2, n2, r2, v2⟩ := h2
  refine ⟨l2.trans l1, n1 ++ n2, by rw [r2, r1, List.append_assoc], ?_⟩
  intro q hq
  rcases List.mem_append.mp hq with h | h
  · exact v1 q h
  · exact v2 q h

theorem frame_of_quiet {a b : Client} (h : Quiet a b) : Frame a b :=
  ⟨h.1, ⟨[], by simp [h.2.1], by simp⟩, [], by simp [h.2.2], by simp⟩

theorem frame_trans {a b c : Client} (h1 : Frame a b) (h2 : Frame b c) : Frame a c := by
  obtain ⟨t1, ⟨a1, l1, w1⟩, n1, r1, v1⟩ := h1
  obtain ⟨t2, ⟨a2, l2, w2⟩, n2, r2, v2⟩ := h2
  refine ⟨t2.trans t1, ⟨a1 ++ a2, by rw [l2, l1, List.append_assoc], ?_⟩,
    n1 ++ n2, by rw [r2, r1, List.append_assoc], ?_⟩
  · intro p hp
    rcases List.mem_append.mp hp with h | h
    · exact w1 p h
    · exact w2 p h
  · intro q hq
    rcases List.mem_append.mp hq with h | h
    · exact v1 q h
    · have := v2 q h
      rw [t1] at this
      exact this

theorem guarded_of_quiet {a b : Client} (h : Quiet a b) : Guarded a b :=
  fun _ => frame_of_quiet h

theorem guarded_trans {a b c : Client} (h1 : Guarded a b) (h2 : Guarded b c) : Guarded a c := by
  intro ht
  have f1 := h1 ht
  exact frame_trans f1 (h2 (by rw [f1.1]; exact ht))

theorem rel_quiet : Rel Quiet := ⟨id, quiet_trans⟩
theorem rel_noSend : Rel NoSend := ⟨noSend_of_quiet, noSend_trans⟩
theorem rel_frame : Rel Frame := ⟨frame_of_quiet, frame_trans⟩
theorem rel_guarded : Rel Guarded := ⟨guarded_of_quiet, guarded_trans⟩

section
variable {R : Client → Client → Prop} {α β : Type}

theorem holds_pure (hR : Rel R) (a : α) : Holds R (pure a : JS α) :=
  ⟨fun st => hR.quiet (quiet_refl st)⟩

theorem holds_throw (hR : Rel R) (e : Exn) : Holds R (JS.throw e : JS α) :=
  ⟨fun st => hR.quiet (quiet_refl st)⟩

theorem holds_lift (hR : Rel R) (x : Except Exn α) : Holds R (JS.lift x) := by
  cases x with
  | ok a => exact ⟨fun st => hR.quiet (quiet_refl st)⟩
  | error e => exact ⟨fun st => hR.quiet (quiet_refl st)⟩

theorem holds_get (hR : Rel R) : Holds R JS.get :=
  ⟨fun st => hR.quiet (quiet_refl st)⟩

theorem holds_bind (hR : Rel R) {m : JS α} {f : α → JS β} (hm : Holds R m)
    (hf : ∀ a, Holds R (f a)) : Holds R (m >>= f) := by
  constructor
  intro st
  have h1 := hm.run st
  simp only [js_bind_apply]
  cases hms : m st with
  | ok a st1 =>
    rw [hms] at h1
    exact hR.trans h1 ((hf a).run st1)
  | throw e st1 =>
    rw [hms] at h1
    exact h1

theorem holds_ite {c : Prop} [Decidable c] {a b : JS α} (ha : Holds R a) (hb : Holds R b) :
    Holds R (if c then a else b) := by
  split
  · exact ha
  · exact hb

theorem holds_of_quiet (hR : Rel R) {m : JS α} (h : Holds Quiet m) : Holds R m :=
  ⟨fun st => hR.quiet (h.run st)⟩

end

theorem quiet_emit (channel : String) (args : List JSVal) : Holds Quiet (emit channel args) :=
  ⟨fun _ => ⟨rfl, rfl, rfl⟩⟩

theorem quiet_setTimeout (a b : JSVal) : Holds Quiet (setTimeout a b) :=
  ⟨fun _ => ⟨rfl, rfl, rfl⟩⟩

theorem quiet_callFunction (callback : JSVal) (args : List JSVal) :
    Holds Quiet (callFunction callback args) := by
  constructor
  intro st
  unfold callFunction
  split
  · exact ⟨rfl, rfl, rfl⟩
  · exact ⟨rfl, rfl, rfl⟩

theorem quiet_validateLoop (f : String) (options : JSVal) :
    ∀ required : List String, Holds Quiet (validateLoop f options required)
  | [] => holds_pure rel_quiet true
  | name :: rest => by
    unfold validateLoop
    apply holds_bind rel_quiet (holds_lift rel_quiet _)
    intro keys
    apply holds_ite
    · exact quiet_validateLoop f options rest
    · exact holds_bind rel_quiet (quiet_emit _ _) (fun _ => holds_pure rel_quiet _)

theorem quiet_validateRequiredParams (f : String) (options : JSVal) (required : List String) :
    Holds Quiet (validateRequiredParams f options required) := by
  unfold validateRequiredParams
  dsimp only
  repeat (first
    | exact quiet_validateLoop _ _ _
    | exact quiet_emit _ _
    | apply holds_pure rel_quiet
    | apply holds_bind rel_quiet
    | apply holds_ite
    | intro _)

theorem quiet_handleRequestError (ext : Ext) (err : JSVal) (response : Option Response)
    (body : Option String) (message : String) (critical : Bool) :
    Holds Quiet (handleRequestError ext err response body message critical) := by
  unfold handleRequestError
  dsimp only
  apply holds_bind rel_quiet (holds_lift rel_quiet _)
  intro json
  apply holds_ite
  · cases ext.jsonParse (body.getD "undefined") <;> dsimp only <;>
    repeat (first
      | exact quiet_emit _ _
      | apply holds_pure rel_quiet
      | apply holds_throw rel_quiet
      | apply holds_lift rel_quiet
      | apply holds_bind rel_quiet
      | apply holds_ite
      | intro _)
  · cases response <;> dsimp only <;>
    repeat (first
      | exact quiet_emit _ _
      | apply holds_pure rel_quiet
      | apply holds_lift rel_quiet
      | apply holds_bind rel_quiet
      | apply holds_ite
      | intro _)

theorem lookup_setKey (k : String) (v : JSVal) :
    ∀ ps : List (String × JSVal), JSVal.lookup k (JSVal.setKey k v ps) = some v
  | [] => by simp [JSVal.setKey, JSVal.lookup]
  | (l, w) :: ps => by
    by_cases h : l = k
    · simp [JSVal.setKey, JSVal.lookup, h]
    · simp [JSVal.setKey, JSVal.lookup, h, lookup_setKey k v ps]

theorem guarded_makeAuthenticatedGetRequest (url : String) (qs : JSVal) (context label : String)
    (e p : Bool) (callback : JSVal) :
    Holds Guarded
      (makeAuthenticatedGetRequest url qs (.endpoint context label e p callback)) := by
  constructor
  intro st ht
  refine ⟨rfl, ⟨[], by simp [makeAuthenticatedGetRequest, request, Res.state], by simp⟩,
    [⟨url, .GET, some (if !qs.truthy then JSVal.object [] else qs), none,
      some st.access_token, .endpoint context label e p callback⟩], rfl, ?_⟩
  intro q hq
  rw [List.mem_singleton.mp hq]
  exact ⟨rfl, ht, by simp [Request.carries]⟩

theorem guarded_makeAuthenticatedPostRequest (url : String) (form : JSVal)
    (context label : String) (e p : Bool) (callback : JSVal)
    (hform : form.isObjectOrAbsent = true) :
    Holds Guarded
      (makeAuthenticatedPostRequest url form (.endpoint context label e p callback)) := by
  constructor
  intro st ht
  cases form with
  | undefined => exact frame_of_quiet ⟨rfl, rfl, rfl⟩
  | null => exact frame_of_quiet ⟨rfl, rfl, rfl⟩
  | nan => simp [JSVal.isObjectOrAbsent] at hform
  | bool b => simp [JSVal.isObjectOrAbsent] at hform
  | num n => simp [JSVal.isObjectOrAbsent] at hform
  | str s => simp [JSVal.isObjectOrAbsent] at hform
  | obj kind props =>
    refine ⟨rfl, ⟨[], by simp [makeAuthenticatedPostRequest, request, Res.state, JSVal.setProp],
      by simp⟩,
      [⟨url, .POST, none, some (.obj kind (JSVal.setKey "access_token" st.access_token props)),
        none, .endpoint context label e p callback⟩], rfl, ?_⟩
    intro q hq
    rw [List.mem_singleton.mp hq]
    exact ⟨rfl, ht, by simp [Request.carries, lookup_setKey]⟩

theorem frame_waitUntilAuthenticated (handler : Pending) (rest : JS Self)
    (hopt : handler.options.isObjectOrAbsent = true) (hrest : Holds Guarded rest) :
    Holds Frame (waitUntilAuthenticated handler rest) := by
  constructor
  intro st
  by_cases ht : st.access_token.truthy = true
  · have : waitUntilAuthenticated handler rest st = rest st := by
      simp [waitUntilAuthenticated, ht]
    rw [this]
    exact hrest.run st ht
  · have : waitUntilAuthenticated handler rest st =
        .ok .this { st with listeners := st.listeners ++ [handler] } := by
      simp [waitUntilAuthenticated, ht, onAuthenticated]
    rw [this]
    refine ⟨rfl, ⟨[handler], rfl, ?_⟩, [], by simp [Res.state], by simp⟩
    intro p hp
    rw [List.mem_singleton.mp hp]
    exact hopt

theorem guarded_waitUntilAuthenticated (handler : Pending) (rest : JS Self)
    (hrest : Holds Guarded rest) : Holds Guarded (waitUntilAuthenticated handler rest) := by
  constructor
  intro st ht
  have : waitUntilAuthenticated handler rest st = rest st := by
    simp [waitUntilAuthenticated, ht]
  rw [this]
  exact hrest.run st ht

theorem swapCallback_isObjectOrAbsent (options callback : JSVal)
    (h : options.isObjectOrAbsent = true) :
    (swapCallback options callback).1.isObjectOrAbsent = true := by
  unfold swapCallback
  split
  · rfl
  · exact h

theorem guarded_simpleGetRequest (f url : String) (options : JSVal) (required : List String)
    (callback : JSVal) (label : String) :
    Holds Guarded (simpleGetRequest f url options required callback label) := by
  unfold simpleGetRequest
  generalize swapCallback options callback = pair
  obtain ⟨o, c⟩ := pair
  dsimp only
  repeat (first
    | exact holds_of_quiet rel_guarded (quiet_validateRequiredParams _ _ _)
    | exact guarded_makeAuthenticatedGetRequest _ _ _ _ _ _ _
    | apply holds_pure rel_guarded
    | apply holds_bind rel_guarded
    | apply holds_ite
    | intro _)

theorem guarded_simplePostRequest (f url : String) (options : JSVal) (required : List String)
    (callback : JSVal) (label : String) (hopt : options.isObjectOrAbsent = true) :
    Holds Guarded (simplePostRequest f url options required callback label) := by
  unfold simplePostRequest
  have hswap := swapCallback_isObjectOrAbsent options callback hopt
  generalize swapCallback options callback = pair at hswap
  obtain ⟨o, c⟩ := pair
  dsimp only at hswap ⊢
  repeat (first
    | exact holds_of_quiet rel_guarded (quiet_validateRequiredParams _ _ _)
    | exact guarded_makeAuthenticatedPostRequest _ _ _ _ _ _ _ hswap
    | apply holds_pure rel_guarded
    | apply holds_bind rel_guarded
    | apply holds_ite
    | intro _)

theorem guarded_checkedRequest (f : String) (required : List String) (method : Method)
    (url label : String) (parseBody : Bool) (options callback : JSVal)
    (hopt : options.isObjectOrAbsent = true) :
    Holds Guarded (checkedRequest f required method url label parseBody options callback) := by
  unfold checkedRequest
  cases method <;> dsimp only <;>
  repeat (first
    | exact holds_of_quiet rel_guarded (quiet_validateRequiredParams _ _ _)
    | exact holds_of_quiet rel_guarded (quiet_emit _ _)
    | exact guarded_makeAuthenticatedGetRequest _ _ _ _ _ _ _
    | exact guarded_makeAuthenticatedPostRequest _ _ _ _ _ _ _ hopt
    | apply holds_pure rel_guarded
    | apply holds_bind rel_guarded
    | apply holds_ite
    | intro _)

theorem frame_invoke (ext : Ext) (method : Endpoint) (options callback : JSVal)
    (hopt : options.isObjectOrAbsent = true) :
    Holds Frame (invoke ext method options callback) := by
  cases method <;>
    simp only [invoke, getPublicData, getStationsData, getMeasure, getHomeData, getEventsUntil,
      getLastEventOf, getNextEvents, getCameraPicture, setPersonsAway, setPersonsHome,
      addWebHook, dropWebHook, homesData, homeStatus, createNewHomeSchedule,
      deleteHomeSchedule, renameHomeSchedule, syncHomeSchedule, switchHomeSchedule,
      getRoomMeasure, setRoomThermPoint, setThermMode, getHomeCoachsData] <;>
    apply frame_waitUntilAuthenticated _ _ hopt <;>
    first
    | exact guarded_checkedRequest _ _ _ _ _ _ _ _ hopt
    | exact guarded_simpleGetRequest _ _ _ _ _ _
    | exact guarded_simplePostRequest _ _ _ _ _ _ hopt
    | exact guarded_waitUntilAuthenticated _ _ (guarded_simpleGetRequest _ _ _ _ _ _)
    | skip
  case getPublicData =>
    dsimp only
    repeat (first
      | exact holds_of_quiet rel_guarded (quiet_validateRequiredParams _ _ _)
      | exact holds_of_quiet rel_guarded (quiet_emit _ _)
      | exact guarded_makeAuthenticatedGetRequest _ _ _ _ _ _ _
      | apply holds_pure rel_guarded
      | apply holds_lift rel_guarded
      | apply holds_bind rel_guarded
      | apply holds_ite
      | intro _)
  case getStationsData =>
    generalize swapCallback options callback = pair
    obtain ⟨o, c⟩ := pair
    dsimp only
    exact holds_bind rel_guarded (guarded_makeAuthenticatedGetRequest _ _ _ _ _ _ _)
      (fun _ => holds_pure rel_guarded _)
  case getMeasure =>
    dsimp only
    repeat (first
      | exact holds_of_quiet rel_guarded (quiet_validateRequiredParams _ _ _)
      | exact holds_of_quiet rel_guarded (quiet_emit _ _)
      | exact guarded_makeAuthenticatedGetRequest _ _ _ _ _ _ _
      | apply holds_pure rel_guarded
      | apply holds_lift rel_guarded
      | apply holds_bind rel_guarded
      | apply holds_ite
      | intro _)
  case getRoomMeasure =>
    dsimp only
    repeat (first
      | exact holds_of_quiet rel_guarded (quiet_validateRequiredParams _ _ _)
      | exact guarded_makeAuthenticatedGetRequest _ _ _ _ _ _ _
      | apply holds_pure rel_guarded
      | apply holds_lift rel_guarded
      | apply holds_bind rel_guarded
      | apply holds_ite
      | intro _)

theorem requests_invoke_unset (ext : Ext) (method : Endpoint) (options callback : JSVal)
    (st : Client) (ht : st.access_token.truthy = false) :
    (invoke ext method options callback st).state.requests = st.requests := by
  cases method <;>
    simp [invoke, getPublicData, getStationsData, getMeasure, getHomeData, getEventsUntil,
      getLastEventOf, getNextEvents, getCameraPicture, setPersonsAway, setPersonsHome,
      addWebHook, dropWebHook, homesData, homeStatus, createNewHomeSchedule,
      deleteHomeSchedule, renameHomeSchedule, syncHomeSchedule, switchHomeSchedule,
      getRoomMeasure, setRoomThermPoint, setThermMode, getHomeCoachsData,
      waitUntilAuthenticated, onAuthenticated, ht, Res.state]

theorem frameWf_of_quiet {a b : Client} (h : Quiet a b) : FrameWf a b :=
  fun _ => frame_of_quiet h

theorem frameWf_trans {a b c : Client} (h1 : FrameWf a b) (h2 : FrameWf b c) : FrameWf a c := by
  intro hw
  have f1 := h1 hw
  refine frame_trans f1 (h2 ?_)
  obtain ⟨_, ⟨added, hl, hadd⟩, _⟩ := f1
  intro p hp
  rw [hl] at hp
  rcases List.mem_append.mp hp with h | h
  · exact hw p h
  · exact hadd p h

theorem rel_frameWf : Rel FrameWf := ⟨frameWf_of_quiet, frameWf_trans⟩

theorem frameWf_replayAll (ext : Ext) :
    ∀ handlers : List Pending, (∀ p ∈ handlers, p.options.isObjectOrAbsent = true) →
      Holds FrameWf (replayAll ext handlers)
  | [], _ => holds_pure rel_frameWf ()
  | handler :: rest, h => by
    unfold replayAll
    apply holds_bind rel_frameWf
    · unfold replay
      apply holds_bind rel_frameWf
      · exact ⟨fun st _ =>
          (frame_invoke ext handler.method handler.options handler.callback
            (h handler (List.mem_cons_self _ _))).run st⟩
      · intro _
        exact holds_pure rel_frameWf _
    · intro _
      exact frameWf_replayAll ext rest (fun p hp => h p (List.mem_cons_of_mem _ hp))

theorem frameWf_emitAuthenticated (ext : Ext) : Holds FrameWf (emitAuthenticated ext) := by
  constructor
  intro st hw
  have h := (frameWf_replayAll ext st.listeners hw).run
    { st with emitted := st.emitted ++ [⟨"authenticated", []⟩] } hw
  have hq : Quiet st { st with emitted := st.emitted ++ [⟨"authenticated", []⟩] } :=
    ⟨rfl, rfl, rfl⟩
  exact frame_trans (frame_of_quiet hq) h

theorem noSend_request (r : Request) (h : r.viaEndpoint = false) : Holds NoSend (request r) := by
  constructor
  intro st
  refine ⟨rfl, [r], rfl, ?_⟩
  intro q hq
  rw [List.mem_singleton.mp hq]
  exact h

theorem noSend_setToken (token : JSVal) :
    Holds NoSend (JS.modify (fun st => { st with access_token := token })) :=
  ⟨fun st => ⟨rfl, [], by simp [Res.state], by simp⟩⟩

theorem quiet_setScope (scope : JSVal) :
    Holds Quiet (JS.modify (fun st => { st with scope := scope })) :=
  ⟨fun _ => ⟨rfl, rfl, rfl⟩⟩

theorem noSend_authenticate (args callback : JSVal) :
    Holds NoSend (authenticate args callback) := by
  unfold authenticate
  dsimp only
  repeat (first
    | exact holds_of_quiet rel_noSend (quiet_emit _ _)
    | exact holds_of_quiet rel_noSend (quiet_setScope _)
    | exact noSend_setToken _
    | exact noSend_request _ rfl
    | apply holds_pure rel_noSend
    | apply holds_lift rel_noSend
    | apply holds_bind rel_noSend
    | apply holds_ite
    | intro _)
  rename_i grant
  cases grant <;> dsimp only <;>
  repeat (first
    | exact holds_of_quiet rel_noSend (quiet_emit _ _)
    | exact noSend_request _ rfl
    | apply holds_pure rel_noSend
    | apply holds_lift rel_noSend
    | apply holds_bind rel_noSend
    | intro _)

theorem noSend_authenticate_refresh (refresh_token : JSVal) :
    Holds NoSend (authenticate_refresh refresh_token) := by
  unfold authenticate_refresh
  dsimp only
  repeat (first
    | exact noSend_request _ rfl
    | apply holds_pure rel_noSend
    | apply holds_get rel_noSend
    | apply holds_bind rel_noSend
    | intro _)

theorem quiet_parseJson (ext : Ext) (body : Option String) : Holds Quiet (parseJson ext body) := by
  unfold parseJson
  cases ext.jsonParse (body.getD "undefined")
  · exact holds_throw rel_quiet _
  · exact holds_pure rel_quiet _

theorem noSend_refreshResponse (ext : Ext) (err : JSVal) (response : Option Response)
    (body : Option String) : Holds NoSend (refreshResponse ext err response body) := by
  unfold refreshResponse
  dsimp only
  repeat (first
    | exact holds_of_quiet rel_noSend (quiet_handleRequestError _ _ _ _ _ _)
    | exact holds_of_quiet rel_noSend (quiet_parseJson _ _)
    | exact holds_of_quiet rel_noSend (quiet_setTimeout _ _)
    | exact noSend_setToken _
    | apply holds_pure rel_noSend
    | apply holds_lift rel_noSend
    | apply holds_bind rel_noSend
    | apply holds_ite
    | intro _)

theorem quiet_endpointResponse (ext : Ext) (context label : String) (e p : Bool)
    (callback err : JSVal) (response : Option Response) (body : Option String) :
    Holds Quiet (endpointResponse ext context label e p callback err response body) := by
  unfold endpointResponse
  dsimp only
  repeat (first
    | exact quiet_handleRequestError _ _ _ _ _ _
    | exact quiet_parseJson _ _
    | exact quiet_emit _ _
    | exact quiet_callFunction _ _
    | apply holds_pure rel_quiet
    | apply holds_lift rel_quiet
    | apply holds_bind rel_quiet
    | apply holds_ite
    | intro _)

theorem step_of_noSend {a b : Client} (h : NoSend a b) : Step a b :=
  fun _ => ⟨b, h, frame_of_quiet (quiet_refl b)⟩

theorem holds_step_of_noSend {α : Type} {m : JS α} (h : Holds NoSend m) : Holds Step m :=
  ⟨fun st => step_of_noSend (h.run st)⟩

theorem holds_step_of_frameWf {α : Type} {m : JS α} (h : Holds FrameWf m) : Holds Step m :=
  ⟨fun st hw => ⟨st, noSend_of_quiet (quiet_refl st), h.run st hw⟩⟩

theorem holds_step_bind {α β : Type} {m : JS α} {f : α → JS β} (hm : Holds NoSend m)
    (hf : ∀ a, Holds Step (f a)) : Holds Step (m >>= f) := by
  constructor
  intro st hw
  have h1 := hm.run st
  simp only [js_bind_apply]
  cases hms : m st with
  | ok a st1 =>
    rw [hms] at h1
    obtain ⟨mid, hn, hfr⟩ := (hf a).run st1 (by
      intro p hp
      have hl : st1.listeners = st.listeners := h1.1
      rw [hl] at hp
      exact hw p hp)
    exact ⟨mid, noSend_trans h1 hn, hfr⟩
  | throw e st1 =>
    rw [hms] at h1
    exact ⟨st1, h1, frame_of_quiet (quiet_refl st1)⟩

theorem step_authenticateResponse (ext : Ext) (callback err : JSVal)
    (response : Option Response) (body : Option String) :
    Holds Step (authenticateResponse ext callback err response body) := by
  unfold authenticateResponse
  dsimp only
  repeat (first
    | exact holds_step_of_noSend
        (holds_bind rel_noSend (holds_of_quiet rel_noSend (quiet_handleRequestError _ _ _ _ _ _))
          (fun _ => holds_pure rel_noSend _))
    | exact holds_step_of_frameWf
        (holds_bind rel_frameWf (frameWf_emitAuthenticated _)
          (fun _ => holds_ite (holds_of_quiet rel_frameWf (quiet_callFunction _ _))
            (holds_pure rel_frameWf _)))
    | exact holds_of_quiet rel_noSend (quiet_parseJson _ _)
    | exact holds_of_quiet rel_noSend (quiet_setTimeout _ _)
    | exact noSend_setToken _
    | apply holds_pure rel_noSend
    | apply holds_lift rel_noSend
    | apply holds_bind rel_noSend
    | apply holds_step_bind
    | apply holds_ite
    | intro _)

theorem step_runClosure (ext : Ext) (k : Closure) (err : JSVal) (response : Option Response)
    (body : Option String) : Holds Step (runClosure ext k err response body) := by
  cases k with
  | authenticate callback => exact step_authenticateResponse ext callback err response body
  | authenticate_refresh =>
    exact holds_step_of_noSend (noSend_refreshResponse ext err response body)
  | endpoint context label e p callback =>
    exact holds_step_of_noSend
      (holds_of_quiet rel_noSend (quiet_endpointResponse ext context label e p callback err
        response body))

theorem step_of_op (ext : Ext) (op : Op) (st : Client) (hop : op.wellFormed = true) :
    Step st (step ext op st) := by
  cases op with
  | authenticate args callback =>
    exact step_of_noSend ((noSend_authenticate args callback).run st)
  | call method options callback =>
    exact fun _ => ⟨st, noSend_of_quiet (quiet_refl st),
      (frame_invoke ext method options callback hop).run st⟩
  | respond i err response body =>
    unfold step
    dsimp only
    cases st.requests.get? i with
    | none => exact step_of_noSend (noSend_of_quiet (quiet_refl st))
    | some r => exact (step_runClosure ext r.callback err response body).run st
  | timeout i =>
    unfold step
    dsimp only
    cases st.timers.get? i with
    | none => exact step_of_noSend (noSend_of_quiet (quiet_refl st))
    | some t => exact step_of_noSend ((noSend_authenticate_refresh t.refresh_token).run st)

theorem sends_of_step {st st' : Client} (h : Step st st')
    (hw : ∀ p ∈ st.listeners, p.options.isObjectOrAbsent = true) :
    (∀ p ∈ st'.listeners, p.options.isObjectOrAbsent = true) ∧
    ∃ new, st'.requests = st.requests ++ new ∧
      ∀ q ∈ new, q.viaEndpoint = true →
        st'.access_token.truthy = true ∧ q.carries st'.access_token = true := by
  obtain ⟨mid, ⟨hl, n1, r1, v1⟩, ht, ⟨added, hl2, hadd⟩, n2, r2, v2⟩ := h hw
  refine ⟨?_, n1 ++ n2, by rw [r2, r1, List.append_assoc], ?_⟩
  · intro p hp
    rw [hl2, hl] at hp
    rcases List.mem_append.mp hp with h1 | h1
    · exact hw p h1
    · exact hadd p h1
  · intro q hq hv
    rcases List.mem_append.mp hq with h1 | h1
    · rw [v1 q h1] at hv
      cases hv
    · obtain ⟨_, htr, hc⟩ := v2 q h1
      rw [ht]
      exact ⟨htr, hc⟩

theorem inv_step (ext : Ext) (op : Op) (st : Client) (hop : op.wellFormed = true)
    (hinv : Inv st) : Inv (step ext op st) := by
  obtain ⟨hw, new, hr, hnew⟩ := sends_of_step (step_of_op ext op st hop) hinv.1
  refine ⟨hw, ?_⟩
  intro q hq hv
  rw [hr] at hq
  rcases List.mem_append.mp hq with h1 | h1
  · exact hinv.2 q h1 hv
  · exact Exists.intro _ (hnew q h1 hv)

theorem inv_run (ext : Ext) :
    ∀ (ops : List Op) (st : Client), (∀ op ∈ ops, op.wellFormed = true) → Inv st →
      Inv (run ext ops st)
  | [], _, _, hinv => hinv
  | op :: ops, st, hops, hinv =>
    inv_run ext ops (step ext op st) (fun o ho => hops o (List.mem_cons_of_mem _ ho))
      (inv_step ext op st (hops op (List.mem_cons_self _ _)) hinv)

theorem inv_initial : Inv initial :=
  ⟨fun _ hp => (by cases hp), fun _ hq => (by cases hq)⟩

/-- C3 (amended): in every run of the client from the state of the freshly
loaded module, with operations that pass an object or nothing as `options`:
an endpoint method called while the access token is unset sends no request,
whatever its arguments;
the requests an endpoint method sends when called are sent with the token
set and carry that token (GET in the `Authorization` header, POST in the form
field `access_token`); the requests of endpoint methods that any operation
sends (replays of deferred calls included) carry the token the module holds,
which is set; so every request of an endpoint method in the record carries a
token that was set. -/
theorem endpoint_requests_carry_token (ext : Ext) (ops : List Op)
    (hops : ∀ op ∈ ops, op.wellFormed = true) :
    (∀ method options callback, (run ext ops initial).access_token.truthy = false →
      (invoke ext method options callback (run ext ops initial)).state.requests =
        (run ext ops initial).requests) ∧
    (∀ method options callback, options.isObjectOrAbsent = true →
      ∃ new, (invoke ext method options callback (run ext ops initial)).state.requests =
          (run ext ops initial).requests ++ new ∧
        ∀ q ∈ new, q.viaEndpoint = true ∧ (run ext ops initial).access_token.truthy = true ∧
          q.carries (run ext ops initial).access_token = true) ∧
    (∀ op : Op, op.wellFormed = true →
      ∃ new, (step ext op (run ext ops initial)).requests =
          (run ext ops initial).requests ++ new ∧
        ∀ q ∈ new, q.viaEndpoint = true →
          (step ext op (run ext ops initial)).access_token.truthy = true ∧
          q.carries (step ext op (run ext ops initial)).access_token = true) ∧
    (∀ q ∈ (run ext ops initial).requests, q.viaEndpoint = true →
      ∃ token, token.truthy = true ∧ q.carries token = true) := by
  have hinv := inv_run ext ops initial hops inv_initial
  refine ⟨?_, ?_, ?_, hinv.2⟩
  · intro method options callback ht
    exact requests_invoke_unset ext method options callback _ ht
  · intro method options callback hopt
    exact ((frame_invoke ext method options callback hopt).run _).2.2
  · intro op hop
    exact (sends_of_step (step_of_op ext op _ hop) hinv.1).2

/-- The claim C3 on two runs.  In the freshly loaded module the token is
unset and `getStationsData` sends nothing.  After
`authenticate({access_token: "T"})` the call
`setThermMode({home_id: "h", mode: "away"}, cb)` sends one POST, whose form
carries the token "T". -/
theorem endpoint_requests_carry_token_witness :
    (∀ op ∈ ([] : List Op), op.wellFormed = true) ∧
    (invoke sampleExt .getStationsData .undefined (JSVal.func 1)
        (run sampleExt [] initial)).state.requests = (run sampleExt [] initial).requests ∧
    (∀ op ∈ [Op.authenticate sampleToken .undefined,
        Op.call .setThermMode (JSVal.object [("home_id", .str "h"), ("mode", .str "away")])
          (JSVal.func 1)], op.wellFormed = true) ∧
    (∃ token, token.truthy = true ∧
      Request.carries
        ⟨BASE_URL ++ "/api/setthermmode", .POST, none,
          some (JSVal.object [("home_id", .str "h"), ("mode", .str "away"),
            ("access_token", .str "T")]),
          none, .endpoint "setThermMode error" "set-setthermmode" false true (JSVal.func 1)⟩
        token = true) ∧
    (run sampleExt [Op.authenticate sampleToken .undefined,
        Op.call .setThermMode (JSVal.object [("home_id", .str "h"), ("mode", .str "away")])
          (JSVal.func 1)] initial).requests =
      [⟨BASE_URL ++ "/api/setthermmode", .POST, none,
        some (JSVal.object [("home_id", .str "h"), ("mode", .str "away"),
          ("access_token", .str "T")]),
        none, .endpoint "setThermMode error" "set-setthermmode" false true (JSVal.func 1)⟩] :=
  ⟨by decide,
    (endpoint_requests_carry_token sampleExt [] (by decide)).1 .getStationsData .undefined
      (JSVal.func 1) (by decide),
    by decide,
    (endpoint_requests_carry_token sampleExt
      [Op.authenticate sampleToken .undefined,
        Op.call .setThermMode (JSVal.object [("home_id", .str "h"), ("mode", .str "away")])
          (JSVal.func 1)] (by decide)).2.2.2 _ (by decide) (by decide),
    by decide⟩

/-- C3 as stated fails on options that are not an object: after
`authenticate({access_token: "T"})` the call `dropWebHook("abc", cb)` passes
the check of `options` (a non-empty string is truthy) and the validation (no
name is required), the assignment `form['access_token'] = access_token` leaves
the string as it is, and the POST is sent with the form `"abc"`: a request of
an endpoint method, sent with the token set, that does not carry it. -/
theorem endpoint_requests_carry_token_counterexample :
    (run sampleExt [.authenticate sampleToken .undefined,
        .call .dropWebHook (.str "abc") (JSVal.func 1)] initial).access_token = .str "T" ∧
    (run sampleExt [.authenticate sampleToken .undefined,
        .call .dropWebHook (.str "abc") (JSVal.func 1)] initial).requests =
      [⟨BASE_URL ++ "/api/dropwebhook", .POST, none, some (.str "abc"), none,
        .endpoint "dropWebHook error" "set-dropwebhook" false true (JSVal.func 1)⟩] ∧
    Request.viaEndpoint
      ⟨BASE_URL ++ "/api/dropwebhook", .POST, none, some (.str "abc"), none,
        .endpoint "dropWebHook error" "set-dropwebhook" false true (JSVal.func 1)⟩ = true ∧
    Request.carries
      ⟨BASE_URL ++ "/api/dropwebhook", .POST, none, some (.str "abc"), none,
        .endpoint "dropWebHook error" "set-dropwebhook" false true (JSVal.func 1)⟩
      (.str "T") = false ∧
    Op.wellFormed (.call .dropWebHook (.str "abc") (JSVal.func 1)) = false := by
  decide

/-- C1: given a pre-issued token, `authenticate` stores it and returns: it
emits nothing (no `'authenticated'`), sends nothing, schedules nothing and
does not call the callback, whatever the state; a call deferred earlier stays
deferred after it. -/
theorem authenticate_preissued_token_no_signal (callback : JSVal) (st : Client) :
    authenticate sampleToken callback st = .ok .this { st with access_token := .str "T" } ∧
    run sampleExt [.authenticate .undefined .undefined,
        .call .getStationsData .undefined (JSVal.func 1),
        .authenticate sampleToken .undefined] initial =
      { access_token := .str "T",
        listeners := [⟨.getStationsData, .undefined, JSVal.func 1⟩],
        emitted := [⟨"error", [JSVal.mkError "Authenticate 'args' not set."]⟩] } := by
  constructor
  · rfl
  · decide

/-- C2: called while the token is unset, `setPersonsAway`, `setPersonsHome`,
`addWebHook` and `dropWebHook` subscribe a handler that calls
`getCameraPicture`, and `renameHomeSchedule` one that calls `homeStatus`, with
the options and callback of the call; when `'authenticated'` fires after a
deferred `setPersonsAway({home_id: "h"}, cb)`, the replay is that of
`getCameraPicture`: it emits the error of its missing `image_id` and the only
request of the run is the token request. -/
theorem deferred_handler_replays_other_method (options callback : JSVal) :
    (setPersonsAway options callback initial).state.listeners =
      [⟨.getCameraPicture, options, callback⟩] ∧
    (setPersonsHome options callback initial).state.listeners =
      [⟨.getCameraPicture, options, callback⟩] ∧
    (addWebHook options callback initial).state.listeners =
      [⟨.getCameraPicture, options, callback⟩] ∧
    (dropWebHook options callback initial).state.listeners =
      [⟨.getCameraPicture, options, callback⟩] ∧
    (renameHomeSchedule options callback initial).state.listeners =
      [⟨.homeStatus, options, callback⟩] ∧
    (run sampleExt [.call .setPersonsAway (JSVal.object [("home_id", .str "h")]) (JSVal.func 1),
        .authenticate sampleCredentials .undefined,
        .respond 0 .null (some ⟨200, []⟩) (some sampleTokenBody)] initial).emitted =
      [⟨"authenticated", []⟩,
        ⟨"error", [JSVal.mkError "getCameraPicture 'image_id' not set."]⟩] ∧
    (run sampleExt [.call .setPersonsAway (JSVal.object [("home_id", .str "h")]) (JSVal.func 1),
        .authenticate sampleCredentials .undefined,
        .respond 0 .null (some ⟨200, []⟩) (some sampleTokenBody)] initial).requests.map
        (fun r => r.url) = [TOKEN_URL] := by
  refine ⟨rfl, rfl, rfl, rfl, rfl, by decide, by decide⟩

/-- C4: after `authenticate` with `client_id` "c" and `client_secret` "s" has
succeeded and the refresh timer has fired, the form of the refresh request has
the grant type and the refresh token, but `client_id` and `client_secret` are
`undefined`: the module-level variables it reads are never assigned. -/
theorem refresh_form_lacks_credentials :
    (run sampleExt [.authenticate sampleCredentials .undefined,
        .respond 0 .null (some ⟨200, []⟩) (some sampleTokenBody),
        .timeout 0] initial).requests.get? 1 =
      some ⟨TOKEN_URL, .POST, none,
        some (JSVal.object [("grant_type", .str "refresh_token"), ("refresh_token", .str "R"),
          ("client_id", .undefined), ("client_secret", .undefined)]),
        none, .authenticate_refresh⟩ ∧
    (run sampleExt [.authenticate sampleCredentials .undefined,
        .respond 0 .null (some ⟨200, []⟩) (some sampleTokenBody),
        .timeout 0] initial).client_id = .undefined ∧
    (run sampleExt [.authenticate sampleCredentials .undefined,
        .respond 0 .null (some ⟨200, []⟩) (some sampleTokenBody),
        .timeout 0] initial).client_secret = .undefined := by
  decide

/-- C5: when the request of `homeStatus` or of `getStationsData`, called with
a callback, fails with status 500, the classified error is emitted on
`'warning'` and the callback is not called; the handler of `getMeasure` does
call it with the error. -/
theorem failed_request_error_not_passed_to_callback :
    (run sampleExt [.authenticate sampleToken .undefined,
        .call .homeStatus (JSVal.object [("home_id", .str "h")]) (JSVal.func 1),
        .respond 0 .null (some ⟨500, [("content-type", "text/html")]⟩) (some "oops")]
        initial).emitted = [⟨"warning", [JSVal.mkError "homeStatus error: Status code500"]⟩] ∧
    (run sampleExt [.authenticate sampleToken .undefined,
        .call .homeStatus (JSVal.object [("home_id", .str "h")]) (JSVal.func 1),
        .respond 0 .null (some ⟨500, [("content-type", "text/html")]⟩) (some "oops")]
        initial).invoked = [] ∧
    (run sampleExt [.authenticate sampleToken .undefined,
        .call .getStationsData (JSVal.object []) (JSVal.func 1),
        .respond 0 .null (some ⟨500, [("content-type", "text/html")]⟩) (some "oops")]
        initial).emitted =
      [⟨"warning", [JSVal.mkError "getStationsDataError error: Status code500"]⟩] ∧
    (run sampleExt [.authenticate sampleToken .undefined,
        .call .getStationsData (JSVal.object []) (JSVal.func 1),
        .respond 0 .null (some ⟨500, [("content-type", "text/html")]⟩) (some "oops")]
        initial).invoked = [] ∧
    (run sampleExt [.authenticate sampleToken .undefined,
        .call .getMeasure (JSVal.object [("device_id", .str "d"), ("scale", .str "max"),
          ("type", .str "Temperature")]) (JSVal.func 1),
        .respond 0 .null (some ⟨500, [("content-type", "text/html")]⟩) (some "oops")]
        initial).invoked =
      [⟨JSVal.func 1, [JSVal.mkError "getMeasure error: Status code500"]⟩] := by
  decide

theorem errorDetail_object (props : List (String × JSVal)) (e m : JSVal)
    (herror : JSVal.lookup "error" props = some e) (hmessage : e.getProp "message" = .ok m) :
    errorDetail (JSVal.object props) = .ok (if m.truthy then m else e) := by
  have hp : (JSVal.object props).getProp "error" = .ok e := by
    simp [JSVal.object, JSVal.getProp, herror]
  have ht : (JSVal.object props).truthy = true := rfl
  unfold errorDetail
  rw [if_pos ht, hp]
  show (e.getProp "message" >>= fun m => pure (if m.truthy then m else e)) = _
  rw [hmessage]
  rfl

theorem toStr_str (ext : Ext) (c : Conversion) (s : String) :
    JSVal.toStr ext c (.str s) = .ok s := by
  simp [JSVal.toStr]

theorem getProp_str (s k : String) : (JSVal.str s).getProp k = .ok .undefined := rfl

theorem truthy_undefined : JSVal.undefined.truthy = false := rfl

theorem truthy_str (s : String) (h : s ≠ "") : (JSVal.str s).truthy = true := by
  simp [JSVal.truthy, h]

/-- C11 (amended): for a response whose `content-type`, trimmed and in lower
case, contains `application/json`, and a body that parses to an object with an
`error` member `e` whose `message` can be read (`e` is not `null`): the detail
is `e.message` when that is truthy and `e` otherwise, converted to a string as
`+` does it.  When the conversion gives the text `detail`,
`handleRequestError` returns (and emits on `'error'` or `'warning'`) an error
with the message `"<context>: <detail>"`; when the conversion throws,
`handleRequestError` throws and emits nothing.  In particular the detail is
`e.message` when that is a non-empty string, and `e` when that is a string. -/
theorem handleRequestError_json_detail (ext : Ext) (err : JSVal) (r : Response)
    (ct body : String) (props : List (String × JSVal)) (e m : JSVal) (message : String)
    (critical : Bool) (st : Client)
    (hct : r.header "content-type" = some ct)
    (hjson : jsContains (jsToLowerCase ext (jsTrim ct)) "application/json" = true)
    (hbody : body ≠ "")
    (hparse : ext.jsonParse body = some (JSVal.object props))
    (herror : JSVal.lookup "error" props = some e)
    (hmessage : e.getProp "message" = .ok m) :
    (∀ detail, JSVal.toStr ext .concat (if m.truthy then m else e) = .ok detail →
      handleRequestError ext err (some r) (some body) message critical st =
        .ok (JSVal.mkError (message ++ ": " ++ detail))
          { st with emitted := st.emitted ++
            [⟨if critical then "error" else "warning",
              [JSVal.mkError (message ++ ": " ++ detail)]⟩] }) ∧
    (∀ x, JSVal.toStr ext .concat (if m.truthy then m else e) = .error x →
      handleRequestError ext err (some r) (some body) message critical st = .throw x st) ∧
    (∀ text, m = .str text → text ≠ "" →
      handleRequestError ext err (some r) (some body) message critical st =
        .ok (JSVal.mkError (message ++ ": " ++ text))
          { st with emitted := st.emitted ++
            [⟨if critical then "error" else "warning",
              [JSVal.mkError (message ++ ": " ++ text)]⟩] }) ∧
    (∀ text, e = .str text →
      handleRequestError ext err (some r) (some body) message critical st =
        .ok (JSVal.mkError (message ++ ": " ++ text))
          { st with emitted := st.emitted ++
            [⟨if critical then "error" else "warning",
              [JSVal.mkError (message ++ ": " ++ text)]⟩] }) := by
  have hdetail := errorDetail_object props e m herror hmessage
  have hok : ∀ detail, JSVal.toStr ext .concat (if m.truthy then m else e) = .ok detail →
      handleRequestError ext err (some r) (some body) message critical st =
        .ok (JSVal.mkError (message ++ ": " ++ detail))
          { st with emitted := st.emitted ++
            [⟨if critical then "error" else "warning",
              [JSVal.mkError (message ++ ": " ++ detail)]⟩] } := by
    intro detail hconv
    simp only [handleRequestError, js_bind_apply]
    simp [isJsonResponse, hct, hjson, hbody, hparse, hdetail, hconv]
    cases critical <;> simp [emit]
  refine ⟨hok, ?_, ?_, ?_⟩
  · intro x hconv
    simp only [handleRequestError, js_bind_apply]
    simp [isJsonResponse, hct, hjson, hbody, hparse, hdetail, hconv]
  · intro text hm htext
    apply hok
    subst hm
    rw [if_pos (truthy_str text htext), toStr_str]
  · intro text he
    apply hok
    subst he
    rw [getProp_str] at hmessage
    cases hmessage
    rw [if_neg (by simp [truthy_undefined]), toStr_str]

/-- The amended claim C11 on a 403 response with the content type
`" Application/JSON; charset=utf-8 "` and the body
`{"error":{"message":"Invalid token"}}`: the message is
`"getMeasure error: Invalid token"`; on the body `{"error":"invalid_grant"}`,
whose `error` has no message, the detail is the `error` value; on
`{"error":{"message":1e21}}` the detail is the number as JavaScript prints it,
`"1e+21"`; on `{"error":{"toString":1}}` the conversion of the `error` object
throws. -/
theorem handleRequestError_json_detail_witness :
    handleRequestError sampleErrorExt .null
        (some ⟨403, [("content-type", " Application/JSON; charset=utf-8 ")]⟩)
        (some sampleErrorBody) "getMeasure error" false initial =
      .ok (JSVal.mkError ("getMeasure error" ++ ": " ++ "Invalid token"))
        { initial with emitted := initial.emitted ++
          [⟨if false then "error" else "warning",
            [JSVal.mkError ("getMeasure error" ++ ": " ++ "Invalid token")]⟩] } ∧
    handleRequestError sampleErrorExt .null
        (some ⟨403, [("content-type", " Application/JSON; charset=utf-8 ")]⟩)
        (some sampleErrorBody) "getMeasure error" false initial =
      .ok (JSVal.mkError "getMeasure error: Invalid token")
        { emitted := [⟨"warning", [JSVal.mkError "getMeasure error: Invalid token"]⟩] } ∧
    handleRequestError sampleErrorExt .null (some ⟨400, [("content-type", "application/json")]⟩)
        (some sampleGrantErrorBody) "Authenticate error" true initial =
      .ok (JSVal.mkError "Authenticate error: invalid_grant")
        { emitted := [⟨"error", [JSVal.mkError "Authenticate error: invalid_grant"]⟩] } ∧
    handleRequestError sampleErrorExt .null (some ⟨403, [("content-type", "application/json")]⟩)
        (some sampleLargeMessageBody) "getMeasure error" false initial =
      .ok (JSVal.mkError "getMeasure error: 1e+21")
        { emitted := [⟨"warning", [JSVal.mkError "getMeasure error: 1e+21"]⟩] } ∧
    handleRequestError sampleErrorExt .null (some ⟨403, [("content-type", "application/json")]⟩)
        (some sampleToStringBody) "getMeasure error" false initial =
      .throw (.typeError "Cannot convert object to primitive value") initial :=
  ⟨(handleRequestError_json_detail sampleErrorExt .null
      ⟨403, [("content-type", " Application/JSON; charset=utf-8 ")]⟩
      " Application/JSON; charset=utf-8 " sampleErrorBody
      [("error", JSVal.object [("message", .str "Invalid token")])]
      (JSVal.object [("message", .str "Invalid token")]) (.str "Invalid token")
      "getMeasure error" false initial
      (by decide) (by decide) (by decide) (by decide) (by decide) rfl).2.2.1
      "Invalid token" rfl (by decide),
    by decide, by decide, by decide, by decide⟩

/-- C11 as stated fails on two bodies with an `error` member.  On
`{"error":{"message":""}}` the message is present and empty, and the detail is
not it but the `error` object, `"[object Object]"`.  On `{"error":null}`
reading `error.message` throws a `TypeError`: no error is returned. -/
theorem handleRequestError_json_detail_counterexample :
    (handleRequestError sampleErrorExt .null (some ⟨403, [("content-type", "application/json")]⟩)
        (some sampleEmptyMessageBody) "getMeasure error" false initial).value =
      some (JSVal.mkError "getMeasure error: [object Object]") ∧
    (handleRequestError sampleErrorExt .null (some ⟨403, [("content-type", "application/json")]⟩)
        (some sampleEmptyMessageBody) "getMeasure error" false initial).value ≠
      some (JSVal.mkError ("getMeasure error" ++ ": " ++ "")) ∧
    handleRequestError sampleErrorExt .null (some ⟨403, [("content-type", "application/json")]⟩)
        (some sampleNullErrorBody) "getMeasure error" false initial =
      .throw (.typeError "Cannot read properties of null (reading 'message')") initial := by
  decide

theorem lookup_setKey_ne (k l : String) (v : JSVal) (h : k ≠ l) :
    ∀ ps : List (String × JSVal), JSVal.lookup k (JSVal.setKey l v ps) = JSVal.lookup k ps
  | [] => by simp [JSVal.setKey, JSVal.lookup, Ne.symm h]
  | (a, w) :: ps => by
    by_cases ha : a = l
    · subst ha
      simp [JSVal.setKey, JSVal.lookup, Ne.symm h]
    · by_cases hk : a = k
      · subst hk
        simp [JSVal.setKey, JSVal.lookup, ha]
      · simp [JSVal.setKey, JSVal.lookup, ha, hk, lookup_setKey_ne k l v h ps]

theorem measureOptions_fields (ext : Ext) (kind : ObjKind) (ps processed : List (String × JSVal)) :
    ∃ fields, measureOptions ext (.obj kind ps) processed = .ok fields ∧
      (∀ v, JSVal.lookup "date_begin" ps = some v → v.truthy = true →
        JSVal.lookup "date_begin" fields = some (normalizeDate ext v)) ∧
      (∀ v, JSVal.lookup "date_end" ps = some v → v.truthy = true → v ≠ .str "last" →
        JSVal.lookup "date_end" fields = some (normalizeDate ext v)) ∧
      (∀ v, JSVal.lookup "limit" ps = some v → v.truthy = true →
        JSVal.lookup "limit" fields = some (clampLimit ext v)) := by
  refine ⟨_, rfl, ?_, ?_, ?_⟩
  · intro v hv ht
    simp only [hv, Option.getD_some, ht, if_true]
    split_ifs <;> simp [lookup_setKey, lookup_setKey_ne]
  · intro v hv ht hlast
    simp only [hv, Option.getD_some, ht, if_true, hlast, if_false]
    split_ifs <;> simp [lookup_setKey, lookup_setKey_ne]
  · intro v hv ht
    simp only [hv, Option.getD_some, ht, if_true]
    split_ifs <;> simp [lookup_setKey, lookup_setKey_ne]

theorem getProp_object (ps : List (String × JSVal)) (k : String) :
    (JSVal.object ps).getProp k = .ok ((JSVal.lookup k ps).getD .undefined) := rfl

theorem setProp_object (ps : List (String × JSVal)) (k : String) (v : JSVal) :
    (JSVal.object ps).setProp k v = .ok (JSVal.object (JSVal.setKey k v ps)) := rfl

theorem truthy_object (ps : List (String × JSVal)) : (JSVal.object ps).truthy = true := rfl

theorem normalizeList_str (ext : Ext) (s : String) :
    normalizeList ext (.str s) = .ok (.str (jsToLowerCase ext (removeSpaces s))) := rfl

theorem validateRequiredParams_present (f : String) (props : List (String × JSVal))
    (required : List String) (st : Client) (h : ∀ n ∈ required, n ∈ props.map Prod.fst) :
    validateRequiredParams f (JSVal.object props) required st = .ok true st := by
  rw [validateRequiredParams_object]
  exact validateLoop_present f props st required h

theorem getMeasure_fields (ext : Ext) (props : List (String × JSVal)) (tv t : JSVal)
    (callback : JSVal) (st : Client) (htoken : st.access_token.truthy = true)
    (hkeys : ∀ n ∈ ["device_id", "scale", "type"], n ∈ props.map Prod.fst)
    (htype : JSVal.lookup "type" props = some tv) (hnorm : normalizeList ext tv = .ok t) :
    ∃ fields, getMeasure ext (JSVal.object props) callback st =
        .ok .this { st with requests := st.requests ++
          [⟨BASE_URL ++ "/api/getmeasure", .GET, some (JSVal.object fields), none,
            some st.access_token,
            .endpoint "getMeasure error" "get-measure" true true callback⟩] } ∧
      (∀ v, JSVal.lookup "date_begin" props = some v → v.truthy = true →
        JSVal.lookup "date_begin" fields = some (normalizeDate ext v)) ∧
      (∀ v, JSVal.lookup "date_end" props = some v → v.truthy = true → v ≠ .str "last" →
        JSVal.lookup "date_end" fields = some (normalizeDate ext v)) ∧
      (∀ v, JSVal.lookup "limit" props = some v → v.truthy = true →
        JSVal.lookup "limit" fields = some (clampLimit ext v)) := by
  have hv := validateRequiredParams_present "getMeasure" props _ st hkeys
  obtain ⟨fields, hmo, h1, h2, h3⟩ := measureOptions_fields ext .plain
    (JSVal.setKey "type" t props)
    (if ((JSVal.lookup "module_id" (JSVal.setKey "type" t props)).getD .undefined).truthy = true then
      JSVal.setKey "module_id" ((JSVal.lookup "module_id" (JSVal.setKey "type" t props)).getD .undefined)
        [("device_id", (JSVal.lookup "device_id" (JSVal.setKey "type" t props)).getD .undefined), ("scale", (JSVal.lookup "scale" (JSVal.setKey "type" t props)).getD .undefined), ("type", t)]
    else
      [("device_id", (JSVal.lookup "device_id" (JSVal.setKey "type" t props)).getD .undefined), ("scale", (JSVal.lookup "scale" (JSVal.setKey "type" t props)).getD .undefined), ("type", t)])
  refine ⟨fields, ?_, ?_, ?_, ?_⟩
  · have hmo2 := hmo
    rw [show JSVal.obj .plain (JSVal.setKey "type" t props) = JSVal.object (JSVal.setKey "type" t props) from rfl] at hmo2
    simp [getMeasure, waitUntilAuthenticated, htoken, truthy_object, hv, getProp_object, htype,
      hnorm, setProp_object, hmo2, makeAuthenticatedGetRequest, request]
  · intro v hv2 ht
    exact h1 v (by rw [lookup_setKey_ne _ _ _ (by decide)]; exact hv2) ht
  · intro v hv2 ht hl
    exact h2 v (by rw [lookup_setKey_ne _ _ _ (by decide)]; exact hv2) ht hl
  · intro v hv2 ht
    exact h3 v (by rw [lookup_setKey_ne _ _ _ (by decide)]; exact hv2) ht

theorem getRoomMeasure_fields (ext : Ext) (props : List (String × JSVal)) (tv t : JSVal)
    (callback : JSVal) (st : Client) (htoken : st.access_token.truthy = true)
    (hkeys : ∀ n ∈ ["home_id", "room_id", "scale", "type"], n ∈ props.map Prod.fst)
    (htype : JSVal.lookup "type" props = some tv) (hnorm : normalizeList ext tv = .ok t) :
    ∃ fields, getRoomMeasure ext (JSVal.object props) callback st =
        .ok .this { st with requests := st.requests ++
          [⟨BASE_URL ++ "/api/getroommeasure", .GET, some (JSVal.object fields), none,
            some st.access_token,
            .endpoint "getRoomMeasure error" "get-roommeasure" true true callback⟩] } ∧
      (∀ v, JSVal.lookup "date_begin" props = some v → v.truthy = true →
        JSVal.lookup "date_begin" fields = some (normalizeDate ext v)) ∧
      (∀ v, JSVal.lookup "date_end" props = some v → v.truthy = true → v ≠ .str "last" →
        JSVal.lookup "date_end" fields = some (normalizeDate ext v)) ∧
      (∀ v, JSVal.lookup "limit" props = some v → v.truthy = true →
        JSVal.lookup "limit" fields = some (clampLimit ext v)) := by
  have hv := validateRequiredParams_present "getRoomMeasure" props _ st hkeys
  obtain ⟨fields, hmo, h1, h2, h3⟩ := measureOptions_fields ext .plain
    (JSVal.setKey "type" t props)
    [("home_id", (JSVal.lookup "home_id" (JSVal.setKey "type" t props)).getD .undefined), ("room_id", (JSVal.lookup "room_id" (JSVal.setKey "type" t props)).getD .undefined), ("scale", (JSVal.lookup "scale" (JSVal.setKey "type" t props)).getD .undefined), ("type", t)]
  refine ⟨fields, ?_, ?_, ?_, ?_⟩
  · have hmo2 := hmo
    rw [show JSVal.obj .plain (JSVal.setKey "type" t props) = JSVal.object (JSVal.setKey "type" t props) from rfl] at hmo2
    simp [getRoomMeasure, waitUntilAuthenticated, htoken, truthy_object, hv, getProp_object, htype,
      hnorm, setProp_object, hmo2, makeAuthenticatedGetRequest, request]
  · intro v hv2 ht
    exact h1 v (by rw [lookup_setKey_ne _ _ _ (by decide)]; exact hv2) ht
  · intro v hv2 ht hl
    exact h2 v (by rw [lookup_setKey_ne _ _ _ (by decide)]; exact hv2) ht hl
  · intro v hv2 ht
    exact h3 v (by rw [lookup_setKey_ne _ _ _ (by decide)]; exact hv2) ht

theorem normalizeDate_seconds_or_millis (ext : Ext) (s d : Int) (hlo : 10000000 < s)
    (hhi : s ≤ 10000000000) (hd : d = s ∨ d = s * 1000) :
    normalizeDate ext (.num d) = .num s ∧ (JSVal.num d).truthy = true := by
  have hms : (if d ≤ 10000000000 then d * 1000 else d) = s * 1000 := by
    rcases hd with rfl | rfl
    · rw [if_pos hhi]
    · rw [if_neg (by omega)]
  have hrange : -MAX_TIME ≤ s * 1000 ∧ s * 1000 ≤ MAX_TIME := by
    unfold MAX_TIME
    constructor <;> omega
  constructor
  · simp only [normalizeDate, momentUnixOfNumber, hms]
    rw [if_pos hrange, Int.mul_fdiv_cancel _ (by decide)]
  · have : d ≠ 0 := by rcases hd with rfl | rfl <;> omega
    simp [JSVal.truthy, this]

/-- C12 (amended): for a numeric date `s` with `1e7 < s ≤ 1e10`, given either
as `s` or as `s * 1000`, in a call of `getMeasure` or `getRoomMeasure` that has
its required names and a `type` that normalises, with the token set: the
method sends its GET request, and the `date_begin` and the `date_end` of the
request parameters are `s` when the option is that date. -/
theorem measure_dates_normalized (ext : Ext) (s d : Int) (hlo : 10000000 < s)
    (hhi : s ≤ 10000000000) (hd : d = s ∨ d = s * 1000) (props : List (String × JSVal))
    (tv t callback : JSVal) (st : Client) (htoken : st.access_token.truthy = true)
    (htype : JSVal.lookup "type" props = some tv) (hnorm : normalizeList ext tv = .ok t) :
    normalizeDate ext (.num d) = .num s ∧
    ((∀ n ∈ ["device_id", "scale", "type"], n ∈ props.map Prod.fst) →
      ∃ fields, getMeasure ext (JSVal.object props) callback st =
          .ok .this { st with requests := st.requests ++
            [⟨BASE_URL ++ "/api/getmeasure", .GET, some (JSVal.object fields), none,
              some st.access_token,
              .endpoint "getMeasure error" "get-measure" true true callback⟩] } ∧
        (JSVal.lookup "date_begin" props = some (.num d) →
          JSVal.lookup "date_begin" fields = some (.num s)) ∧
        (JSVal.lookup "date_end" props = some (.num d) →
          JSVal.lookup "date_end" fields = some (.num s))) ∧
    ((∀ n ∈ ["home_id", "room_id", "scale", "type"], n ∈ props.map Prod.fst) →
      ∃ fields, getRoomMeasure ext (JSVal.object props) callback st =
          .ok .this { st with requests := st.requests ++
            [⟨BASE_URL ++ "/api/getroommeasure", .GET, some (JSVal.object fields), none,
              some st.access_token,
              .endpoint "getRoomMeasure error" "get-roommeasure" true true callback⟩] } ∧
        (JSVal.lookup "date_begin" props = some (.num d) →
          JSVal.lookup "date_begin" fields = some (.num s)) ∧
        (JSVal.lookup "date_end" props = some (.num d) →
          JSVal.lookup "date_end" fields = some (.num s))) := by
  obtain ⟨hnd, htr⟩ := normalizeDate_seconds_or_millis ext s d hlo hhi hd
  refine ⟨hnd, ?_, ?_⟩
  · intro hkeys
    obtain ⟨fields, hrun, hb, he, _⟩ :=
      getMeasure_fields ext props tv t callback st htoken hkeys htype hnorm
    refine ⟨fields, hrun, ?_, ?_⟩
    · intro h
      rw [hb _ h htr, hnd]
    · intro h
      rw [he _ h htr (by simp), hnd]
  · intro hkeys
    obtain ⟨fields, hrun, hb, he, _⟩ :=
      getRoomMeasure_fields ext props tv t callback st htoken hkeys htype hnorm
    refine ⟨fields, hrun, ?_, ?_⟩
    · intro h
      rw [hb _ h htr, hnd]
    · intro h
      rw [he _ h htr (by simp), hnd]

/-- The amended claim C12 on 1700000000 and 1700000000000: both normalise to
1700000000, and `getMeasure` and `getRoomMeasure` called with the first as
`date_begin` and the second as `date_end` send 1700000000 for both. -/
theorem measure_dates_normalized_witness :
    ((10000000 : Int) < 1700000000 ∧ (1700000000 : Int) ≤ 10000000000) ∧
    normalizeDate sampleExt (.num 1700000000) = .num 1700000000 ∧
    normalizeDate sampleExt (.num 1700000000000) = .num 1700000000 ∧
    (getMeasure sampleExt
        (sampleMeasure [("date_begin", .num 1700000000), ("date_end", .num 1700000000000)])
        (JSVal.func 1) sampleAuthenticated).state.requests =
      [⟨BASE_URL ++ "/api/getmeasure", .GET,
        some (JSVal.object [("device_id", .str "d"), ("scale", .str "max"),
          ("type", .str "temperature"), ("date_begin", .num 1700000000),
          ("date_end", .num 1700000000)]),
        none, some (.str "T"),
        .endpoint "getMeasure error" "get-measure" true true (JSVal.func 1)⟩] ∧
    (getRoomMeasure sampleExt
        (sampleRoomMeasure [("date_begin", .num 1700000000), ("date_end", .num 1700000000000)])
        (JSVal.func 1) sampleAuthenticated).state.requests =
      [⟨BASE_URL ++ "/api/getroommeasure", .GET,
        some (JSVal.object [("home_id", .str "h"), ("room_id", .str "r"), ("scale", .str "max"),
          ("type", .str "temperature"), ("date_begin", .num 1700000000),
          ("date_end", .num 1700000000)]),
        none, some (.str "T"),
        .endpoint "getRoomMeasure error" "get-roommeasure" true true (JSVal.func 1)⟩] :=
  ⟨by decide,
    (measure_dates_normalized sampleExt 1700000000 1700000000 (by decide) (by decide)
      (Or.inl rfl) [("type", .str "Temperature")] (.str "Temperature")
      (.str (jsToLowerCase sampleExt (removeSpaces "Temperature")))
      (JSVal.func 1) sampleAuthenticated (by decide) (by decide) (normalizeList_str _ _)).1,
    (measure_dates_normalized sampleExt 1700000000 1700000000000 (by decide) (by decide)
      (Or.inr (by decide)) [("type", .str "Temperature")] (.str "Temperature")
      (.str (jsToLowerCase sampleExt (removeSpaces "Temperature"))) (JSVal.func 1) sampleAuthenticated
      (by decide) (by decide) (normalizeList_str _ _)).1,
    by decide, by decide⟩

/-- C12 as stated fails for the seconds up to `1e7`: for `s = 86400`
(2 January 1970) the value `s * 1000 = 86400000` is itself at most `1e10`, is
taken for seconds and is sent as 86400000, while `s` is sent as 86400. -/
theorem measure_dates_counterexample :
    ((0 : Int) < 86400 ∧ (86400 : Int) ≤ 10000000000) ∧
    normalizeDate sampleExt (.num 86400) = .num 86400 ∧
    normalizeDate sampleExt (.num (86400 * 1000)) = .num 86400000 ∧
    (getMeasure sampleExt
        (sampleMeasure [("date_begin", .num 86400), ("date_end", .num (86400 * 1000))])
        (JSVal.func 1) sampleAuthenticated).state.requests =
      [⟨BASE_URL ++ "/api/getmeasure", .GET,
        some (JSVal.object [("device_id", .str "d"), ("scale", .str "max"),
          ("type", .str "temperature"), ("date_begin", .num 86400),
          ("date_end", .num 86400000)]),
        none, some (.str "T"),
        .endpoint "getMeasure error" "get-measure" true true (JSVal.func 1)⟩] ∧
    (getRoomMeasure sampleExt
        (sampleRoomMeasure [("date_begin", .num 86400), ("date_end", .num (86400 * 1000))])
        (JSVal.func 1) sampleAuthenticated).state.requests =
      [⟨BASE_URL ++ "/api/getroommeasure", .GET,
        some (JSVal.object [("home_id", .str "h"), ("room_id", .str "r"), ("scale", .str "max"),
          ("type", .str "temperature"), ("date_begin", .num 86400),
          ("date_end", .num 86400000)]),
        none, some (.str "T"),
        .endpoint "getRoomMeasure error" "get-roommeasure" true true (JSVal.func 1)⟩] := by
  decide

theorem clampLimit_plain (ext : Ext) (n : Int) (hpos : 0 < n) (hlt : n < EXPONENT_FROM) :
    clampLimit ext (.num n) = .num (min n 1024) ∧ (JSVal.num n).truthy = true := by
  have hrange : -EXPONENT_FROM < n ∧ n < EXPONENT_FROM := by
    unfold EXPONENT_FROM at hlt ⊢
    constructor <;> omega
  constructor
  · simp only [clampLimit, if_pos hrange]
    by_cases h : n > 1024
    · rw [if_pos h, min_eq_right (by omega)]
    · rw [if_neg h, min_eq_left (by omega)]
  · have : n ≠ 0 := by omega
    simp [JSVal.truthy, this]

/-- C13 (amended): for a positive integer limit `n` below `1e21`, in a call
of `getMeasure` or `getRoomMeasure` that has its required names and a `type`
that normalises, with the token set: the method sends its GET request and the
`limit` of the request parameters is `min n 1024`, which is at most 1024. -/
theorem measure_limit_clamped (ext : Ext) (n : Int) (hpos : 0 < n) (hlt : n < EXPONENT_FROM)
    (props : List (String × JSVal)) (tv t callback : JSVal) (st : Client)
    (htoken : st.access_token.truthy = true)
    (htype : JSVal.lookup "type" props = some tv) (hnorm : normalizeList ext tv = .ok t)
    (hlimit : JSVal.lookup "limit" props = some (.num n)) :
    clampLimit ext (.num n) = .num (min n 1024) ∧ min n 1024 ≤ 1024 ∧
    ((∀ k ∈ ["device_id", "scale", "type"], k ∈ props.map Prod.fst) →
      ∃ fields, getMeasure ext (JSVal.object props) callback st =
          .ok .this { st with requests := st.requests ++
            [⟨BASE_URL ++ "/api/getmeasure", .GET, some (JSVal.object fields), none,
              some st.access_token,
              .endpoint "getMeasure error" "get-measure" true true callback⟩] } ∧
        JSVal.lookup "limit" fields = some (.num (min n 1024))) ∧
    ((∀ k ∈ ["home_id", "room_id", "scale", "type"], k ∈ props.map Prod.fst) →
      ∃ fields, getRoomMeasure ext (JSVal.object props) callback st =
          .ok .this { st with requests := st.requests ++
            [⟨BASE_URL ++ "/api/getroommeasure", .GET, some (JSVal.object fields), none,
              some st.access_token,
              .endpoint "getRoomMeasure error" "get-roommeasure" true true callback⟩] } ∧
        JSVal.lookup "limit" fields = some (.num (min n 1024))) := by
  obtain ⟨hcl, htr⟩ := clampLimit_plain ext n hpos hlt
  refine ⟨hcl, min_le_right _ _, ?_, ?_⟩
  · intro hkeys
    obtain ⟨fields, hrun, _, _, hl⟩ :=
      getMeasure_fields ext props tv t callback st htoken hkeys htype hnorm
    exact ⟨fields, hrun, by rw [hl _ hlimit htr, hcl]⟩
  · intro hkeys
    obtain ⟨fields, hrun, _, _, hl⟩ :=
      getRoomMeasure_fields ext props tv t callback st htoken hkeys htype hnorm
    exact ⟨fields, hrun, by rw [hl _ hlimit htr, hcl]⟩

/-- The amended claim C13 on the limits 5000 and 10: `getMeasure` sends 1024
for `limit: 5000`, and `getRoomMeasure` sends 10 for `limit: 10`. -/
theorem measure_limit_clamped_witness :
    ((0 : Int) < 5000 ∧ (5000 : Int) < EXPONENT_FROM) ∧
    (∃ fields, getMeasure sampleExt (sampleMeasure [("limit", .num 5000)]) (JSVal.func 1)
          sampleAuthenticated =
        .ok .this { sampleAuthenticated with requests := sampleAuthenticated.requests ++
          [⟨BASE_URL ++ "/api/getmeasure", .GET, some (JSVal.object fields), none,
            some sampleAuthenticated.access_token,
            .endpoint "getMeasure error" "get-measure" true true (JSVal.func 1)⟩] } ∧
      JSVal.lookup "limit" fields = some (.num (min 5000 1024))) ∧
    (getMeasure sampleExt (sampleMeasure [("limit", .num 5000)]) (JSVal.func 1)
        sampleAuthenticated).state.requests =
      [⟨BASE_URL ++ "/api/getmeasure", .GET,
        some (JSVal.object [("device_id", .str "d"), ("scale", .str "max"),
          ("type", .str "temperature"), ("limit", .num 1024)]),
        none, some (.str "T"),
        .endpoint "getMeasure error" "get-measure" true true (JSVal.func 1)⟩] ∧
    (getRoomMeasure sampleExt (sampleRoomMeasure [("limit", .num 10)]) (JSVal.func 1)
        sampleAuthenticated).state.requests =
      [⟨BASE_URL ++ "/api/getroommeasure", .GET,
        some (JSVal.object [("home_id", .str "h"), ("room_id", .str "r"), ("scale", .str "max"),
          ("type", .str "temperature"), ("limit", .num 10)]),
        none, some (.str "T"),
        .endpoint "getRoomMeasure error" "get-roommeasure" true true (JSVal.func 1)⟩] :=
  ⟨by decide,
    (measure_limit_clamped sampleExt 5000 (by decide) (by decide)
      [("device_id", .str "d"), ("scale", .str "max"), ("type", .str "Temperature"),
        ("limit", .num 5000)]
      (.str "Temperature") (.str (jsToLowerCase sampleExt (removeSpaces "Temperature"))) (JSVal.func 1)
      sampleAuthenticated (by decide) (by decide) (normalizeList_str _ _) (by decide)).2.2.1
      (by decide),
    by decide, by decide⟩

/-- C13 as stated fails from `1e21` on: JavaScript prints the limit `1e21` as
`"1e+21"`, `parseInt` reads the `1`, and the limit sent is 1, not
`min(1e21, 1024) = 1024`. -/
theorem measure_limit_counterexample :
    (0 : Int) < EXPONENT_FROM ∧
    clampLimit sampleErrorExt (.num EXPONENT_FROM) = .num 1 ∧
    JSVal.num 1 ≠ JSVal.num (min EXPONENT_FROM 1024) ∧
    (getMeasure sampleErrorExt (sampleMeasure [("limit", .num EXPONENT_FROM)]) (JSVal.func 1)
        sampleAuthenticated).state.requests =
      [⟨BASE_URL ++ "/api/getmeasure", .GET,
        some (JSVal.object [("device_id", .str "d"), ("scale", .str "max"),
          ("type", .str "temperature"), ("limit", .num 1)]),
        none, some (.str "T"),
        .endpoint "getMeasure error" "get-measure" true true (JSVal.func 1)⟩] ∧
    (getRoomMeasure sampleErrorExt (sampleRoomMeasure [("limit", .num EXPONENT_FROM)])
        (JSVal.func 1) sampleAuthenticated).state.requests =
      [⟨BASE_URL ++ "/api/getroommeasure", .GET,
        some (JSVal.object [("home_id", .str "h"), ("room_id", .str "r"), ("scale", .str "max"),
          ("type", .str "temperature"), ("limit", .num 1)]),
        none, some (.str "T"),
        .endpoint "getRoomMeasure error" "get-roommeasure" true true (JSVal.func 1)⟩] := by
  decide

theorem fire_stations_handler (ext : Ext) (options callback : JSVal) (st : Client)
    (htoken : st.access_token.truthy = true)
    (hl : st.listeners = [⟨.getStationsData, options, callback⟩]) :
    fire ext st = { st with
      emitted := st.emitted ++ [⟨"authenticated", []⟩],
      requests := st.requests ++ [stationsRequest options callback st.access_token] } := by
  rcases hsw : swapCallback options callback with ⟨o, c⟩
  simp [fire, emitAuthenticated, hl, replayAll, replay, invoke, getStationsData,
    waitUntilAuthenticated, htoken, hsw, makeAuthenticatedGetRequest, request, Res.state,
    stationsRequest]

theorem fire_iterate_stations_handler (ext : Ext) (options callback : JSVal) :
    ∀ (k : Nat) (st : Client), st.access_token.truthy = true →
      st.listeners = [⟨.getStationsData, options, callback⟩] →
      ((fire ext)^[k] st).listeners = [⟨.getStationsData, options, callback⟩] ∧
      ((fire ext)^[k] st).access_token = st.access_token ∧
      ((fire ext)^[k] st).requests =
        st.requests ++ List.replicate k (stationsRequest options callback st.access_token)
  | 0, st, _, hl => by simp [hl]
  | k + 1, st, htoken, hl => by
    have h1 := fire_stations_handler ext options callback st htoken hl
    have ht1 : (fire ext st).access_token = st.access_token := by rw [h1]
    have hl1 : (fire ext st).listeners = [⟨.getStationsData, options, callback⟩] := by
      rw [h1]
      exact hl
    have hr1 : (fire ext st).requests =
        st.requests ++ [stationsRequest options callback st.access_token] := by rw [h1]
    obtain ⟨hl2, ht2, hr2⟩ := fire_iterate_stations_handler ext options callback k
      (fire ext st) (by rw [ht1]; exact htoken) hl1
    rw [Function.iterate_succ_apply]
    refine ⟨hl2, ht2.trans ht1, ?_⟩
    rw [hr2, hr1, ht1, List.append_assoc, List.replicate_succ]
    rfl

theorem grows_of_quiet {a b : Client} (h : Quiet a b) : Grows a b :=
  ⟨⟨[], by simp [h.2.1]⟩, [], by simp [h.2.2]⟩

theorem grows_trans {a b c : Client} (h1 : Grows a b) (h2 : Grows b c) : Grows a c := by
  obtain ⟨⟨a1, l1⟩, n1, r1⟩ := h1
  obtain ⟨⟨a2, l2⟩, n2, r2⟩ := h2
  exact ⟨⟨a1 ++ a2, by rw [l2, l1, List.append_assoc]⟩, n1 ++ n2,
    by rw [r2, r1, List.append_assoc]⟩

theorem rel_grows : Rel Grows := ⟨grows_of_quiet, grows_trans⟩

theorem grows_of_noSend {α : Type} {m : JS α} (h : Holds NoSend m) : Holds Grows m :=
  ⟨fun st => ⟨⟨[], by simp [(h.run st).1]⟩, (h.run st).2.choose, (h.run st).2.choose_spec.1⟩⟩

theorem adds_of_quiet {a b : Client} (h : Quiet a b) : Adds a b :=
  ⟨h.1, grows_of_quiet h⟩

theorem adds_trans {a b c : Client} (h1 : Adds a b) (h2 : Adds b c) : Adds a c :=
  ⟨h2.1.trans h1.1, grows_trans h1.2 h2.2⟩

theorem rel_adds : Rel Adds := ⟨adds_of_quiet, adds_trans⟩

theorem grows_of_adds {α : Type} {m : JS α} (h : Holds Adds m) : Holds Grows m :=
  ⟨fun st => (h.run st).2⟩

theorem adds_request (r : Request) : Holds Adds (request r) :=
  ⟨fun _ => ⟨rfl, ⟨[], by simp [request, Res.state]⟩, [r], rfl⟩⟩

theorem adds_onAuthenticated (handler : Pending) : Holds Adds (onAuthenticated handler) :=
  ⟨fun _ => ⟨rfl, ⟨[handler], rfl⟩, [], by simp [onAuthenticated, Res.state]⟩⟩

theorem adds_makeAuthenticatedGetRequest (url : String) (qs : JSVal) (k : Closure) :
    Holds Adds (makeAuthenticatedGetRequest url qs k) := by
  unfold makeAuthenticatedGetRequest
  dsimp only
  repeat (first
    | exact adds_request _
    | apply holds_get rel_adds
    | apply holds_bind rel_adds
    | intro _)

theorem adds_makeAuthenticatedPostRequest (url : String) (form : JSVal) (k : Closure) :
    Holds Adds (makeAuthenticatedPostRequest url form k) := by
  unfold makeAuthenticatedPostRequest
  repeat (first
    | exact adds_request _
    | apply holds_get rel_adds
    | apply holds_lift rel_adds
    | apply holds_bind rel_adds
    | intro _)

theorem adds_waitUntilAuthenticated (handler : Pending) (rest : JS Self)
    (hrest : Holds Adds rest) : Holds Adds (waitUntilAuthenticated handler rest) := by
  unfold waitUntilAuthenticated
  apply holds_bind rel_adds (holds_get rel_adds)
  intro st
  apply holds_ite
  · exact adds_onAuthenticated handler
  · exact hrest

theorem adds_simpleGetRequest (f url : String) (options : JSVal) (required : List String)
    (callback : JSVal) (label : String) :
    Holds Adds (simpleGetRequest f url options required callback label) := by
  unfold simpleGetRequest
  generalize swapCallback options callback = pair
  obtain ⟨o, c⟩ := pair
  dsimp only
  repeat (first
    | exact holds_of_quiet rel_adds (quiet_validateRequiredParams _ _ _)
    | exact adds_makeAuthenticatedGetRequest _ _ _
    | apply holds_pure rel_adds
    | apply holds_bind rel_adds
    | apply holds_ite
    | intro _)

theorem adds_simplePostRequest (f url : String) (options : JSVal) (required : List String)
    (callback : JSVal) (label : String) :
    Holds Adds (simplePostRequest f url options required callback label) := by
  unfold simplePostRequest
  generalize swapCallback options callback = pair
  obtain ⟨o, c⟩ := pair
  dsimp only
  repeat (first
    | exact holds_of_quiet rel_adds (quiet_validateRequiredParams _ _ _)
    | exact adds_makeAuthenticatedPostRequest _ _ _
    | apply holds_pure rel_adds
    | apply holds_bind rel_adds
    | apply holds_ite
    | intro _)

theorem adds_checkedRequest (f : String) (required : List String) (method : Method)
    (url label : String) (parseBody : Bool) (options callback : JSVal) :
    Holds Adds (checkedRequest f required method url label parseBody options callback) := by
  unfold checkedRequest
  cases method <;> dsimp only <;>
  repeat (first
    | exact holds_of_quiet rel_adds (quiet_validateRequiredParams _ _ _)
    | exact holds_of_quiet rel_adds (quiet_emit _ _)
    | exact adds_makeAuthenticatedGetRequest _ _ _
    | exact adds_makeAuthenticatedPostRequest _ _ _
    | apply holds_pure rel_adds
    | apply holds_bind rel_adds
    | apply holds_ite
    | intro _)

theorem adds_invoke (ext : Ext) (method : Endpoint) (options callback : JSVal) :
    Holds Adds (invoke ext method options callback) := by
  cases method <;>
    simp only [invoke, getPublicData, getStationsData, getMeasure, getHomeData, getEventsUntil,
      getLastEventOf, getNextEvents, getCameraPicture, setPersonsAway, setPersonsHome,
      addWebHook, dropWebHook, homesData, homeStatus, createNewHomeSchedule,
      deleteHomeSchedule, renameHomeSchedule, syncHomeSchedule, switchHomeSchedule,
      getRoomMeasure, setRoomThermPoint, setThermMode, getHomeCoachsData] <;>
    apply adds_waitUntilAuthenticated <;>
    first
    | exact adds_checkedRequest _ _ _ _ _ _ _ _
    | exact adds_simpleGetRequest _ _ _ _ _ _
    | exact adds_simplePostRequest _ _ _ _ _ _
    | exact adds_waitUntilAuthenticated _ _ (adds_simpleGetRequest _ _ _ _ _ _)
    | skip
  case getPublicData =>
    dsimp only
    repeat (first
      | exact holds_of_quiet rel_adds (quiet_validateRequiredParams _ _ _)
      | exact holds_of_quiet rel_adds (quiet_emit _ _)
      | exact adds_makeAuthenticatedGetRequest _ _ _
      | apply holds_pure rel_adds
      | apply holds_lift rel_adds
      | apply holds_bind rel_adds
      | apply holds_ite
      | intro _)
  case getStationsData =>
    generalize swapCallback options callback = pair
    obtain ⟨o, c⟩ := pair
    dsimp only
    exact holds_bind rel_adds (adds_makeAuthenticatedGetRequest _ _ _)
      (fun _ => holds_pure rel_adds _)
  case getMeasure =>
    dsimp only
    repeat (first
      | exact holds_of_quiet rel_adds (quiet_validateRequiredParams _ _ _)
      | exact holds_of_quiet rel_adds (quiet_emit _ _)
      | exact adds_makeAuthenticatedGetRequest _ _ _
      | apply holds_pure rel_adds
      | apply holds_lift rel_adds
      | apply holds_bind rel_adds
      | apply holds_ite
      | intro _)
  case getRoomMeasure =>
    dsimp only
    repeat (first
      | exact holds_of_quiet rel_adds (quiet_validateRequiredParams _ _ _)
      | exact adds_makeAuthenticatedGetRequest _ _ _
      | apply holds_pure rel_adds
      | apply holds_lift rel_adds
      | apply holds_bind rel_adds
      | apply holds_ite
      | intro _)

theorem adds_replayAll (ext : Ext) :
    ∀ handlers : List Pending, Holds Adds (replayAll ext handlers)
  | [] => holds_pure rel_adds ()
  | handler :: rest => by
    unfold replayAll
    apply holds_bind rel_adds
    · unfold replay
      exact holds_bind rel_adds (adds_invoke ext _ _ _) (fun _ => holds_pure rel_adds _)
    · intro _
      exact adds_replayAll ext rest

theorem quiet_recordAuthenticated :
    Holds Quiet (JS.modify (fun st =>
      { st with emitted := st.emitted ++ [⟨"authenticated", []⟩] })) :=
  ⟨fun _ => ⟨rfl, rfl, rfl⟩⟩

theorem adds_emitAuthenticated (ext : Ext) : Holds Adds (emitAuthenticated ext) := by
  unfold emitAuthenticated
  apply holds_bind rel_adds (holds_get rel_adds)
  intro st
  apply holds_bind rel_adds (holds_of_quiet rel_adds quiet_recordAuthenticated)
  intro _
  exact adds_replayAll ext st.listeners

theorem grows_authenticateResponse (ext : Ext) (callback err : JSVal)
    (response : Option Response) (body : Option String) :
    Holds Grows (authenticateResponse ext callback err response body) := by
  unfold authenticateResponse
  dsimp only
  repeat (first
    | exact holds_of_quiet rel_grows (quiet_handleRequestError _ _ _ _ _ _)
    | exact holds_of_quiet rel_grows (quiet_parseJson _ _)
    | exact holds_of_quiet rel_grows (quiet_setTimeout _ _)
    | exact holds_of_quiet rel_grows (quiet_callFunction _ _)
    | exact grows_of_noSend (noSend_setToken _)
    | exact grows_of_adds (adds_emitAuthenticated _)
    | apply holds_pure rel_grows
    | apply holds_lift rel_grows
    | apply holds_bind rel_grows
    | apply holds_ite
    | intro _)

theorem grows_runClosure (ext : Ext) (k : Closure) (err : JSVal) (response : Option Response)
    (body : Option String) : Holds Grows (runClosure ext k err response body) := by
  cases k with
  | authenticate callback => exact grows_authenticateResponse ext callback err response body
  | authenticate_refresh => exact grows_of_noSend (noSend_refreshResponse ext err response body)
  | endpoint context label e p callback =>
    exact holds_of_quiet rel_grows
      (quiet_endpointResponse ext context label e p callback err response body)

theorem grows_step (ext : Ext) (op : Op) (st : Client) : Grows st (step ext op st) := by
  cases op with
  | authenticate args callback => exact (grows_of_noSend (noSend_authenticate args callback)).run st
  | call method options callback => exact ((adds_invoke ext method options callback).run st).2
  | respond i err response body =>
    unfold step
    dsimp only
    cases st.requests.get? i with
    | none => exact grows_of_quiet (quiet_refl st)
    | some r => exact (grows_runClosure ext r.callback err response body).run st
  | timeout i =>
    unfold step
    dsimp only
    cases st.timers.get? i with
    | none => exact grows_of_quiet (quiet_refl st)
    | some t => exact (grows_of_noSend (noSend_authenticate_refresh t.refresh_token)).run st

theorem grows_run (ext : Ext) : ∀ (ops : List Op) (st : Client), Grows st (run ext ops st)
  | [], st => grows_of_quiet (quiet_refl st)
  | op :: ops, st => grows_trans (grows_step ext op st) (grows_run ext ops (step ext op st))

theorem replayAll_append (ext : Ext) (ys : List Pending) :
    ∀ (xs : List Pending) (st : Client),
      replayAll ext (xs ++ ys) st =
        match replayAll ext xs st with
        | .ok _ mid => replayAll ext ys mid
        | .throw e mid => .throw e mid
  | [], _ => rfl
  | x :: xs, st => by
    simp only [List.cons_append, replayAll, js_bind_apply]
    cases replay ext x st with
    | ok _ s1 => exact replayAll_append ext ys xs s1
    | throw e s1 => rfl

theorem replay_stations_handler (ext : Ext) (options callback : JSVal) (st : Client)
    (htoken : st.access_token.truthy = true) :
    replay ext ⟨.getStationsData, options, callback⟩ st =
      .ok () { st with
        requests := st.requests ++ [stationsRequest options callback st.access_token] } := by
  rcases hsw : swapCallback options callback with ⟨o, c⟩
  simp [replay, invoke, getStationsData, waitUntilAuthenticated, htoken, hsw,
    makeAuthenticatedGetRequest, request, stationsRequest]

theorem fire_eq_replayAll (ext : Ext) (st : Client) :
    fire ext st =
      (replayAll ext st.listeners
        { st with emitted := st.emitted ++ [⟨"authenticated", []⟩] }).state := by
  simp [fire, emitAuthenticated]

/-- C14 (amended): the handler a deferred endpoint call subscribes to
`'authenticated'` is not one-shot.  A call of `getStationsData` with the token
unset subscribes its handler and sends nothing.  No operation removes a
handler: from any state, an operation, a run of operations and a firing of
`'authenticated'` leave the handlers subscribed in place and only add handlers
after them.  A firing calls the handlers in subscription order and stops at
the first that throws: at a firing with the token set at which the handlers
subscribed ahead of a `getStationsData` handler return, the request of that
deferred call is sent again, with the token; when a handler ahead throws (that
of a deferred `getRoomMeasure(undefined, cb)`), it is not.  When the handler
is the only one and the token is set, `k` firings send the request of the
deferred call `k` times and leave the handler subscribed. -/
theorem deferred_handler_not_one_shot (ext : Ext) :
    (∀ (options callback : JSVal) (st : Client), st.access_token.truthy = false →
      getStationsData options callback st =
        .ok .this { st with
          listeners := st.listeners ++ [⟨.getStationsData, options, callback⟩] }) ∧
    (∀ (st : Client) (op : Op),
      ∃ added, (step ext op st).listeners = st.listeners ++ added) ∧
    (∀ (st : Client) (ops : List Op),
      ∃ added, (run ext ops st).listeners = st.listeners ++ added) ∧
    (∀ st : Client, ∃ added, (fire ext st).listeners = st.listeners ++ added) ∧
    (∀ (st mid : Client) (pre post : List Pending) (options callback : JSVal),
      st.listeners = pre ++ ⟨.getStationsData, options, callback⟩ :: post →
      replayAll ext pre { st with emitted := st.emitted ++ [⟨"authenticated", []⟩] } =
        .ok () mid →
      st.access_token.truthy = true →
      ∃ q new, (fire ext st).requests = mid.requests ++ q :: new ∧
        q.url = BASE_URL ++ "/api/getstationsdata" ∧ q.method = .GET ∧
        q.authorization = some st.access_token ∧
        q.callback = .endpoint "getStationsDataError error" "get-stationsdata" false true
          (swapCallback options callback).2) ∧
    fire ext
        { access_token := .str "T",
          listeners := [⟨.getRoomMeasure, .undefined, JSVal.func 1⟩,
            ⟨.getStationsData, .undefined, JSVal.func 2⟩] } =
      { access_token := .str "T",
        listeners := [⟨.getRoomMeasure, .undefined, JSVal.func 1⟩,
          ⟨.getStationsData, .undefined, JSVal.func 2⟩],
        emitted := [⟨"authenticated", []⟩, ⟨"error", [JSVal.mkError "Options not set."]⟩] } ∧
    (∀ (options callback : JSVal) (st : Client) (k : Nat), st.access_token.truthy = true →
      st.listeners = [⟨.getStationsData, options, callback⟩] →
      ((fire ext)^[k] st).listeners = [⟨.getStationsData, options, callback⟩] ∧
      ((fire ext)^[k] st).requests =
        st.requests ++ List.replicate k (stationsRequest options callback st.access_token)) := by
  refine ⟨?_, ?_, ?_, ?_, ?_, rfl, ?_⟩
  · intro options callback st ht
    simp [getStationsData, waitUntilAuthenticated, ht, onAuthenticated]
  · intro st op
    exact (grows_step ext op st).1
  · intro st ops
    exact (grows_run ext ops st).1
  · intro st
    exact ((adds_emitAuthenticated ext).run st).2.1
  · intro st mid pre post options callback hl hpre htoken
    have hmid : mid.access_token = st.access_token := by
      have h := (adds_replayAll ext pre).run
        { st with emitted := st.emitted ++ [⟨"authenticated", []⟩] }
      rw [hpre] at h
      exact h.1
    have hrep := replay_stations_handler ext options callback mid (by rw [hmid]; exact htoken)
    obtain ⟨_, _, new, hnew⟩ := (adds_replayAll ext post).run
      { mid with requests := mid.requests ++ [stationsRequest options callback mid.access_token] }
    refine ⟨stationsRequest options callback mid.access_token, new, ?_, rfl, rfl, ?_, rfl⟩
    · have hlist : replayAll ext st.listeners =
          replayAll ext (pre ++ ⟨.getStationsData, options, callback⟩ :: post) := by rw [hl]
      rw [fire_eq_replayAll, hlist, replayAll_append, hpre]
      simp only [replayAll, js_bind_apply, hrep]
      rw [hnew]
      simp
    · simp [stationsRequest, hmid]
  · intro options callback st k htoken hl
    obtain ⟨h1, _, h3⟩ := fire_iterate_stations_handler ext options callback k st htoken hl
    exact ⟨h1, h3⟩

/-- The amended claim C14 on a deferred `getStationsData(undefined, cb)`:
deferred in the freshly loaded module, it subscribes its handler; subscribed
after the handler of a deferred `homesData(undefined, cb)`, which returns, it
is replayed at a firing with the token "T": the record holds the request of
`homesData` and then its own; and when it is the only handler, two firings
send its request twice. -/
theorem deferred_handler_not_one_shot_witness :
    getStationsData .undefined (JSVal.func 1) initial =
      .ok .this { initial with
        listeners := initial.listeners ++ [⟨.getStationsData, .undefined, JSVal.func 1⟩] } ∧
    (∃ q new,
      (fire sampleExt
          { access_token := .str "T",
            listeners := [⟨.homesData, .undefined, JSVal.func 2⟩,
              ⟨.getStationsData, .undefined, JSVal.func 1⟩] }).requests =
        [⟨BASE_URL ++ "/api/homesdata", .GET, some (JSVal.object []), none, some (.str "T"),
          .endpoint "homesData error" "get-homesdata" false true (JSVal.func 2)⟩] ++ q :: new ∧
      q.url = BASE_URL ++ "/api/getstationsdata" ∧ q.method = .GET ∧
      q.authorization = some (.str "T") ∧
      q.callback = .endpoint "getStationsDataError error" "get-stationsdata" false true
        (swapCallback .undefined (JSVal.func 1)).2) ∧
    (fire sampleExt
        { access_token := .str "T",
          listeners := [⟨.homesData, .undefined, JSVal.func 2⟩,
            ⟨.getStationsData, .undefined, JSVal.func 1⟩] }).requests.map (fun r => r.url) =
      [BASE_URL ++ "/api/homesdata", BASE_URL ++ "/api/getstationsdata"] ∧
    ((fire sampleExt)^[2]
        { access_token := .str "T",
          listeners := [⟨.getStationsData, .undefined, JSVal.func 1⟩] }).requests =
      [] ++ List.replicate 2 (stationsRequest .undefined (JSVal.func 1) (.str "T")) ∧
    ((fire sampleExt)^[2]
        { access_token := .str "T",
          listeners := [⟨.getStationsData, .undefined, JSVal.func 1⟩] }).requests.map
        (fun r => r.url) =
      [BASE_URL ++ "/api/getstationsdata", BASE_URL ++ "/api/getstationsdata"] :=
  ⟨(deferred_handler_not_one_shot sampleExt).1 .undefined (JSVal.func 1) initial (by decide),
    (deferred_handler_not_one_shot sampleExt).2.2.2.2.1
      { access_token := .str "T",
        listeners := [⟨.homesData, .undefined, JSVal.func 2⟩,
          ⟨.getStationsData, .undefined, JSVal.func 1⟩] }
      { access_token := .str "T",
        listeners := [⟨.homesData, .undefined, JSVal.func 2⟩,
          ⟨.getStationsData, .undefined, JSVal.func 1⟩],
        emitted := [⟨"authenticated", []⟩],
        requests := [⟨BASE_URL ++ "/api/homesdata", .GET, some (JSVal.object []), none,
          some (.str "T"),
          .endpoint "homesData error" "get-homesdata" false true (JSVal.func 2)⟩] }
      [⟨.homesData, .undefined, JSVal.func 2⟩] [] .undefined (JSVal.func 1)
      (by decide) (by decide) (by decide),
    by decide,
    ((deferred_handler_not_one_shot sampleExt).2.2.2.2.2.2 .undefined (JSVal.func 1)
      { access_token := .str "T", listeners := [⟨.getStationsData, .undefined, JSVal.func 1⟩] }
      2 (by decide) (by decide)).2,
    by decide⟩

/-- C14 as stated fails: after `getStationsData(undefined, cb)` was deferred,
two successful authentications fire `'authenticated'` twice, and the call is
replayed on both firings: the record holds two requests to
`/api/getstationsdata`, and the handler is still subscribed. -/
theorem deferred_call_one_shot_counterexample :
    (run sampleExt [.call .getStationsData .undefined (JSVal.func 1),
        .authenticate sampleCredentials .undefined,
        .respond 0 .null (some ⟨200, []⟩) (some sampleTokenBody),
        .authenticate sampleCredentials .undefined,
        .respond 2 .null (some ⟨200, []⟩) (some sampleTokenBody)] initial).requests.map
        (fun r => r.url) =
      [TOKEN_URL, BASE_URL ++ "/api/getstationsdata", TOKEN_URL,
        BASE_URL ++ "/api/getstationsdata"] ∧
    (run sampleExt [.call .getStationsData .undefined (JSVal.func 1),
        .authenticate sampleCredentials .undefined,
        .respond 0 .null (some ⟨200, []⟩) (some sampleTokenBody),
        .authenticate sampleCredentials .undefined,
        .respond 2 .null (some ⟨200, []⟩) (some sampleTokenBody)] initial).emitted =
      [⟨"authenticated", []⟩, ⟨"authenticated", []⟩] ∧
    (run sampleExt [.call .getStationsData .undefined (JSVal.func 1),
        .authenticate sampleCredentials .undefined,
        .respond 0 .null (some ⟨200, []⟩) (some sampleTokenBody),
        .authenticate sampleCredentials .undefined,
        .respond 2 .null (some ⟨200, []⟩) (some sampleTokenBody)] initial).listeners =
      [⟨.getStationsData, .undefined, JSVal.func 1⟩] := by
  decide

/-- C15: with the token set and no callback, the exchange
`if (options != null && callback == null) { callback = options; options = null; }`
takes the options object for the callback.  `homeStatus({home_id: "h"})` and
`setThermMode({home_id: "h", mode: "away"})` then validate `null`: they emit
"Options not set." and throw, sending nothing.  `homesData` and
`getStationsData`, which require no name, send their request without the
options, and the response handler of that request, on a 200 response, emits
the data and then calls the options object: it throws "callback is not a
function".  With a callback, `homeStatus({home_id: "h"}, cb)` sends the
options as the query of its request. -/
theorem routed_call_without_callback_drops_options :
    invoke sampleExt .homeStatus (JSVal.object [("home_id", .str "h")]) .undefined
        sampleAuthenticated =
      .throw (.typeError "Cannot convert undefined or null to object")
        { access_token := .str "T",
          emitted := [⟨"error", [JSVal.mkError "Options not set."]⟩] } ∧
    invoke sampleExt .setThermMode (JSVal.object [("home_id", .str "h"), ("mode", .str "away")])
        .undefined sampleAuthenticated =
      .throw (.typeError "Cannot convert undefined or null to object")
        { access_token := .str "T",
          emitted := [⟨"error", [JSVal.mkError "Options not set."]⟩] } ∧
    invoke sampleHomesExt .homesData (JSVal.object [("gateway_types", .str "NAPlug")]) .undefined
        sampleAuthenticated =
      .ok .this
        { access_token := .str "T",
          requests := [⟨BASE_URL ++ "/api/homesdata", .GET, some (JSVal.object []), none,
            some (.str "T"),
            .endpoint "homesData error" "get-homesdata" false true
              (JSVal.object [("gateway_types", .str "NAPlug")])⟩] } ∧
    runClosure sampleHomesExt
        (.endpoint "homesData error" "get-homesdata" false true
          (JSVal.object [("gateway_types", .str "NAPlug")]))
        .null (some ⟨200, [("content-type", "application/json")]⟩) (some sampleHomesBody)
        sampleAuthenticated =
      .throw (.typeError "callback is not a function")
        { access_token := .str "T",
          emitted := [⟨"get-homesdata", [.null, JSVal.object [("homes", JSVal.array [])]]⟩] } ∧
    (run sampleHomesExt [.authenticate sampleToken .undefined,
        .call .homesData (JSVal.object [("gateway_types", .str "NAPlug")]) .undefined,
        .respond 0 .null (some ⟨200, [("content-type", "application/json")]⟩)
          (some sampleHomesBody)] initial).invoked = [] ∧
    (invoke sampleExt .getStationsData (JSVal.object [("get_favorites", .bool true)]) .undefined
        sampleAuthenticated).state.requests =
      [⟨BASE_URL ++ "/api/getstationsdata", .GET, some (JSVal.object []), none, some (.str "T"),
        .endpoint "getStationsDataError error" "get-stationsdata" false true
          (JSVal.object [("get_favorites", .bool true)])⟩] ∧
    invoke sampleExt .homeStatus (JSVal.object [("home_id", .str "h")]) (JSVal.func 1)
        sampleAuthenticated =
      .ok .this
        { access_token := .str "T",
          requests := [⟨BASE_URL ++ "/api/homestatus", .GET,
            some (JSVal.object [("home_id", .str "h")]), none, some (.str "T"),
            .endpoint "homeStatus error" "get-homestatus" false true (JSVal.func 1)⟩] } := by
  decide

end Netatmo
